import Mathlib

/-!
Verification development for the MQTT benchmark suite
(`publisher.py`, `analyzer_forWireshark.py`).

The Python sources are shallowly embedded as follows.

* Python `str` values are modelled as `List Char` (`PyStr`); the string
  primitives the sources rely on (`str.split`, `int(...)`, prefix tests)
  are re-implemented structurally so that concrete runs of the embedded
  code can be evaluated inside proofs.
* Python `dict` values are modelled as association lists with
  update-or-append insertion (last write wins, as for `dict.__setitem__`).
* Machine integers are `ℤ`/`ℕ`; exact fractions are `ℚ`.
* The one place where IEEE-754 binary64 rounding is observable —
  `int(30 * (1000 / delay))` in `Analyzer.calculate_results` — is modelled
  precisely by `fl`, round-to-nearest-ties-to-even onto the 53-bit
  significand grid with unbounded exponent (which agrees with binary64 on
  the whole normal range used here).  All other float arithmetic in the
  analyzer (percentages, means) is modelled by exact `ℚ`/`ℝ` arithmetic;
  the claims checked below only evaluate it at points where the float and
  the exact results coincide.
* `statistics.stdev` is the square root of the sample variance
  (denominator `n - 1`); the square root is `Real.sqrt`.
-/

namespace MQTT

/-- Python `str`, as a list of characters. -/
abbrev PyStr := List Char

/-- Model of Python `s.split(sep)` for a one-character separator: splits at
every occurrence and keeps empty fragments.  `payload.split(":", 2)` in the
source only ever has its elements `0` and `1` inspected, and those coincide
with elements `0` and `1` of the unbounded split, so `maxsplit` needs no
separate model. -/
def splitOnChar (sep : Char) : PyStr → List PyStr
  | [] => [[]]
  | c :: rest =>
    match splitOnChar sep rest with
    | [] => [[]]
    | g :: gs => if c = sep then [] :: g :: gs else (c :: g) :: gs

/-- Leading and trailing whitespace removal, as `int(...)` performs on its
argument. -/
def pyStrip (s : PyStr) : PyStr :=
  ((s.dropWhile Char.isWhitespace).reverse.dropWhile Char.isWhitespace).reverse

/-- Digit-string value, most significant digit first. -/
def digitsVal (s : PyStr) : ℕ :=
  s.foldl (fun acc c => 10 * acc + (c.toNat - ('0').toNat)) 0

/-- Model of Python `int(s)` on `str` input: optional surrounding
whitespace, an optional sign, then a nonempty run of decimal digits;
anything else raises `ValueError`, modelled as `none`.  (Python also
accepts `_` digit separators, which this protocol never produces.) -/
def pyInt? (s : PyStr) : Option ℤ :=
  match pyStrip s with
  | '-' :: ds => if ds ≠ [] ∧ ds.all Char.isDigit then some (-(digitsVal ds : ℤ)) else none
  | '+' :: ds => if ds ≠ [] ∧ ds.all Char.isDigit then some (digitsVal ds : ℤ) else none
  | ds => if ds ≠ [] ∧ ds.all Char.isDigit then some (digitsVal ds : ℤ) else none

/-- Python `repr` of an integer, e.g. for f-string interpolation. -/
def intStr (n : ℤ) : PyStr := (toString n).data

/-- Python `repr` of a natural number. -/
def natStr (n : ℕ) : PyStr := (toString n).data

/-- A Python `dict[int, int]`, as an association list in insertion order. -/
abbrev Dict := List (ℤ × ℤ)

/-- Python `d[k] = v` on a `dict`: overwrite the existing entry or append a
new one.  Last write wins on duplicate keys. -/
def dictInsert (m : Dict) (k v : ℤ) : Dict :=
  if m.any (fun p => p.1 == k) then
    m.map (fun p => if p.1 == k then (k, v) else p)
  else
    m ++ [(k, v)]

/-- The key list of a dict, in insertion order. -/
def dictKeys (m : Dict) : List ℤ := m.map Prod.fst

/-- Python `d[k]` lookup.  Every lookup performed by the analyzer uses a
key taken from `dictKeys`, so the default `0` is never observable. -/
def dictGet (m : Dict) (k : ℤ) : ℤ :=
  ((m.find? (fun p => p.1 == k)).map Prod.snd).getD 0

end MQTT

namespace MQTT.Publisher

/-- The mutable attributes of class `Publisher` (`publisher.py`, lines
8–23): the constructor argument `instance_id` and the run parameters
received over the `request/…` topics, plus the `running` flag. -/
structure State where
  instance_id : ℤ
  qos : ℤ
  delay : ℤ
  messagesize : ℤ
  instancecount : ℤ
  running : Bool

/-- Topic constant. -/
def topicQos : PyStr := "request/qos".data

/-- Topic constant. -/
def topicDelay : PyStr := "request/delay".data

/-- Topic constant. -/
def topicMessagesize : PyStr := "request/messagesize".data

/-- Topic constant. -/
def topicInstancecount : PyStr := "request/instancecount".data

/-- Topic constant. -/
def topicGo : PyStr := "request/go".data

/-- `Publisher.on_message` (`publisher.py`, lines 34–51).  Returns the
updated state together with a flag recording whether this invocation
called `start_publishing` (which sets `running = True` and spawns the
publishing thread).  On the parameter topics, a payload that fails
`int(...)` raises before the assignment, leaving the state unchanged; on
`request/go` the payload is never inspected. -/
def on_message (p : State) (topic payload : PyStr) : State × Bool :=
  if topic = topicQos then
    (match pyInt? payload with
     | some v => { p with qos := v }
     | none => p, false)
  else if topic = topicDelay then
    (match pyInt? payload with
     | some v => { p with delay := v }
     | none => p, false)
  else if topic = topicMessagesize then
    (match pyInt? payload with
     | some v => { p with messagesize := v }
     | none => p, false)
  else if topic = topicInstancecount then
    (match pyInt? payload with
     | some v => { p with instancecount := v }
     | none => p, false)
  else if topic = topicGo then
    if p.instance_id ≤ p.instancecount then
      ({ p with running := true }, true)
    else
      ({ p with running := false }, false)
  else
    (p, false)

/-- The filler string `"x" * messagesize`; Python yields the empty string
for a non-positive repeat count. -/
def xString (messagesize : ℤ) : PyStr := List.replicate messagesize.toNat 'x'

/-- The data topic `f"counter/{instance_id}/{qos}/{delay}/{messagesize}"`
(`publisher.py`, line 62). -/
def dataTopic (p : State) : PyStr :=
  ("counter/").data ++ intStr p.instance_id ++ ("/").data ++ intStr p.qos ++
    ("/").data ++ intStr p.delay ++ ("/").data ++ intStr p.messagesize

/-- One loop body of `Publisher.publish_messages`: the payload
`f"{counter}:{timestamp}:{x_string}"` (`publisher.py`, line 68). -/
def messagePayload (counter : ℕ) (timestamp : ℤ) (messagesize : ℤ) : PyStr :=
  natStr counter ++ (":").data ++ intStr timestamp ++ (":").data ++ xString messagesize

/-- The publish loop of `Publisher.publish_messages` (`publisher.py`,
lines 58–72), with the wall-clock/`running` loop condition abstracted by
the list of millisecond timestamps sampled at the successive iterations:
iteration `i` publishes with the current counter and increments it. -/
def publishLoop (p : State) (counter : ℕ) : List ℤ → List (PyStr × PyStr)
  | [] => []
  | t :: ts => (dataTopic p, messagePayload counter t p.messagesize) :: publishLoop p (counter + 1) ts

/-- `Publisher.publish_messages`, starting from `counter = 0`. -/
def publish_messages (p : State) (timestamps : List ℤ) : List (PyStr × PyStr) :=
  publishLoop p 0 timestamps

end MQTT.Publisher

namespace MQTT.Analyzer

/-- The data-collection attributes of class `Analyzer`
(`analyzer_forWireshark.py`, lines 30–35): `messages_received` maps an
instance id to a dict from counter to timestamp, and `sys_metrics` stores
`$SYS/…` payloads (kept as raw text here; the float-vs-text distinction
made by the source is never consumed by the metrics computation). -/
structure State where
  messages_received : List (ℤ × Dict)
  sys_metrics : List (PyStr × PyStr)

/-- Topic prefix constant. -/
def sysTopicPre : PyStr := "$SYS/".data

/-- Topic prefix constant. -/
def counterTopicPre : PyStr := "counter/".data

/-- Insertion (update-or-append) into the `sys_metrics` dict. -/
def sysInsert (l : List (PyStr × PyStr)) (k v : PyStr) : List (PyStr × PyStr) :=
  if l.any (fun p => p.1 == k) then
    l.map (fun p => if p.1 == k then (k, v) else p)
  else
    l ++ [(k, v)]

/-- `self.messages_received[instance_id][counter] = timestamp` together
with the preceding `if instance_id not in self.messages_received:` guard
(`analyzer_forWireshark.py`, lines 74–77). -/
def recordMessage (outer : List (ℤ × Dict)) (iid counter ts : ℤ) : List (ℤ × Dict) :=
  if outer.any (fun p => p.1 == iid) then
    outer.map (fun p => if p.1 == iid then (p.1, dictInsert p.2 counter ts) else p)
  else
    outer ++ [(iid, dictInsert [] counter ts)]

/-- The parsing performed inside the `try:` block of `Analyzer.on_message`
for a `counter/…` message (`analyzer_forWireshark.py`, lines 64–71):
`instance_id = int(topic.split("/")[1])`, `counter = int(payload.split(":", 2)[0])`,
`timestamp = int(payload.split(":", 2)[1])`.  `none` models any
`ValueError`/`IndexError` raised by these expressions.  All of them are
evaluated before the first mutation of `messages_received`, so an
exception leaves the state untouched. -/
def parseCounterMessage (topic payload : PyStr) : Option (ℤ × ℤ × ℤ) := do
  let iid ← (splitOnChar '/' topic).get? 1 >>= pyInt?
  let counter ← (splitOnChar ':' payload).get? 0 >>= pyInt?
  let ts ← (splitOnChar ':' payload).get? 1 >>= pyInt?
  return (iid, counter, ts)

/-- `Analyzer.on_message` (`analyzer_forWireshark.py`, lines 48–79).  The
`$SYS/` branch stores the payload into `sys_metrics`; the `counter/`
branch parses and records the message, discarding it (state unchanged) if
parsing raises; other topics are ignored. -/
def on_message (s : State) (topic payload : PyStr) : State :=
  if sysTopicPre.isPrefixOf topic then
    { s with sys_metrics := sysInsert s.sys_metrics topic payload }
  else if counterTopicPre.isPrefixOf topic then
    match parseCounterMessage topic payload with
    | some (iid, counter, ts) =>
      { s with messages_received := recordMessage s.messages_received iid counter ts }
    | none => s
  else
    s

end MQTT.Analyzer

namespace MQTT.Float64

/-- Round a rational to the nearest integer, ties to even — the rounding
of IEEE-754 round-to-nearest-even once the value has been scaled into
integer significand position. -/
def roundHalfEven (q : ℚ) : ℤ :=
  let n := ⌊q⌋
  let frac := q - n
  if frac < 1 / 2 then n
  else if 1 / 2 < frac then n + 1
  else if n % 2 = 0 then n else n + 1

/-- Round a positive rational to the nearest binary64 value: the
significand is scaled to `[2^52, 2^53)` using the binary exponent
`Int.log 2 q` and rounded half-to-even.  The exponent is unbounded, so
this agrees with binary64 on the whole normal range (and every value this
development evaluates it on is normal). -/
def fl (q : ℚ) : ℚ :=
  if 0 < q then
    ((roundHalfEven (q * 2 ^ ((52 : ℤ) - Int.log 2 q)) : ℤ) : ℚ) * 2 ^ (Int.log 2 q - 52)
  else 0

/-- Binary64 rounding extended to all rationals by sign symmetry
(IEEE round-to-nearest-even is odd). -/
def flSigned (q : ℚ) : ℚ := if q < 0 then -fl (-q) else fl q

/-- Python `int(...)` applied to a float value: truncation toward zero. -/
def truncQ (q : ℚ) : ℤ := if q < 0 then -⌊-q⌋ else ⌊q⌋

end MQTT.Float64

namespace MQTT.Analyzer

open MQTT.Float64

/-- `sorted_counters = sorted(messages.keys())`
(`analyzer_forWireshark.py`, line 150). -/
def sortedCounters (m : Dict) : List ℤ :=
  List.insertionSort (fun a b => a ≤ b) (dictKeys m)

/-- `actual_messages = len(messages)` (line 165). -/
def actualCount (m : Dict) : ℕ := m.length

/-- `max(sorted_counters)`; only evaluated on a nonempty list by the
source (the empty case is guarded by `continue` at line 152). -/
def listMax : List ℤ → ℤ
  | [] => 0
  | a :: rest => rest.foldl max a

/-- `expected_messages` (lines 155–162): for zero delay, one more than the
largest observed counter; otherwise `int(30 * (1000 / delay))`, computed
in binary64 arithmetic — both the division and the product round, and
`int` truncates. -/
def expected_messages (delay : ℤ) (sorted_counters : List ℤ) : ℤ :=
  if delay = 0 then
    listMax sorted_counters + 1
  else
    truncQ (flSigned (30 * flSigned (1000 / (delay : ℚ))))

/-- `message_loss` (line 166): `100 * (1 - actual/expected)` guarded by
`expected_messages > 0`, not clamped. -/
def message_loss_of (delay : ℤ) (m : Dict) : ℚ :=
  let e := expected_messages delay (sortedCounters m)
  if 0 < e then 100 * (1 - (actualCount m : ℚ) / (e : ℚ)) else 0

/-- The out-of-order scan (lines 170–175): iterate the sorted counters and
count an element whose predecessor in the iteration is strictly larger.
The `(prev, current)` pairs of the loop are exactly `l.zip l.tail`. -/
def outOfOrderCount (l : List ℤ) : ℕ :=
  (l.zip l.tail).countP (fun q => decide (q.2 < q.1))

/-- `out_of_order_percentage` (line 176). -/
def out_of_order_percentage (m : Dict) : ℚ :=
  if 0 < actualCount m then
    100 * (outOfOrderCount (sortedCounters m) : ℚ) / (actualCount m : ℚ)
  else 0

/-- `duplicate_count = len(sorted_counters) - len(set(sorted_counters))`
(lines 180–181). -/
def duplicateCount (l : List ℤ) : ℕ := l.length - l.dedup.length

/-- `duplicate_percentage` (line 182). -/
def duplicates_percentage (m : Dict) : ℚ :=
  if 0 < actualCount m then
    100 * (duplicateCount (sortedCounters m) : ℚ) / (actualCount m : ℚ)
  else 0

/-- The gap samples (lines 186–192): for each index `i ≥ 1` with
`sorted_counters[i] == sorted_counters[i-1] + 1`, the timestamp delta
`messages[sorted_counters[i]] - messages[sorted_counters[i-1]]`.  The
index pairs `(i-1, i)` are exactly `l.zip l.tail`. -/
def gapsOf (m : Dict) : List ℤ :=
  ((sortedCounters m).zip (sortedCounters m).tail).filterMap
    (fun q => if q.2 = q.1 + 1 then some (dictGet m q.2 - dictGet m q.1) else none)

/-- `statistics.mean` on a list of integers (exact value). -/
def pyMean (l : List ℤ) : ℚ := (l.sum : ℚ) / (l.length : ℚ)

/-- `mean_gap` (lines 194–198): the mean of the gap samples, `0` if there
are none. -/
def mean_gap_of (m : Dict) : ℚ :=
  if gapsOf m ≠ [] then pyMean (gapsOf m) else 0

/-- The square of `statistics.stdev`: sample variance with denominator
`n - 1`. -/
def sampleVariance (l : List ℤ) : ℚ :=
  ((l.map (fun x => ((x : ℚ) - pyMean l) ^ 2)).sum) / ((l.length : ℚ) - 1)

/-- `statistics.stdev` (exact value): square root of the sample
variance. -/
noncomputable def stdev (l : List ℤ) : ℝ := Real.sqrt (sampleVariance l)

/-- `std_dev_gap` for a given gap list (lines 194–199): `stdev(gaps)` when
there are at least two samples, else `0` (also `0` when there are no
samples at all). -/
noncomputable def stdOfGaps (g : List ℤ) : ℝ :=
  if g ≠ [] then (if 1 < g.length then stdev g else 0) else 0

/-- `std_dev_gap` of one publisher's dict. -/
noncomputable def std_dev_gap_of (m : Dict) : ℝ := stdOfGaps (gapsOf m)

/-- The five per-publisher metric values appended to
`per_publisher_metrics` in one iteration of the loop at lines 148–202
(the five lists grow in lockstep, so they are modelled as one list of
records).  The gap samples are carried so that the `ℝ`-valued standard
deviation can be derived from the same record. -/
structure PubMetrics where
  message_loss : ℚ
  out_of_order : ℚ
  duplicates : ℚ
  mean_gap : ℚ
  gaps : List ℤ
  deriving DecidableEq

/-- One iteration of the per-publisher loop: `none` models `continue` on
an empty sorted-counter list (line 152). -/
def perPublisherMetrics (delay : ℤ) (m : Dict) : Option PubMetrics :=
  if sortedCounters m = [] then none
  else some
    { message_loss := message_loss_of delay m
      out_of_order := out_of_order_percentage m
      duplicates := duplicates_percentage m
      mean_gap := mean_gap_of m
      gaps := gapsOf m }

/-- `statistics.mean` on a list of rationals (exact value). -/
def pyMeanQ (l : List ℚ) : ℚ := l.sum / (l.length : ℚ)

/-- `statistics.mean` on a list of reals. -/
noncomputable def pyMeanR (l : List ℝ) : ℝ := l.sum / (l.length : ℝ)

/-- `total_messages = sum(len(messages) for messages in
self.messages_received.values())` (line 135). -/
def totalMessages (received : List (ℤ × Dict)) : ℕ :=
  (received.map (fun p => p.2.length)).sum

/-- The `ℚ`-valued fields of the result record built by
`Analyzer.calculate_results` (lines 133–227): overall message rate and
the cross-publisher averages, each average `0` when no publisher
contributed (lines 204–213).  `avg_std_dev_gap`, the only `ℝ`-valued
field, is computed by `avg_std_dev_gap` below from the same per-publisher
records. -/
structure RunResultQ where
  message_rate : ℚ
  avg_message_loss : ℚ
  avg_out_of_order : ℚ
  avg_duplicates : ℚ
  avg_mean_gap : ℚ
  deriving DecidableEq

/-- `Analyzer.calculate_results`, rational part. -/
def calculate_results (delay : ℤ) (received : List (ℤ × Dict)) (test_duration : ℚ) :
    RunResultQ :=
  let ms := received.filterMap (fun p => perPublisherMetrics delay p.2)
  { message_rate :=
      if 0 < test_duration then (totalMessages received : ℚ) / test_duration else 0
    avg_message_loss :=
      if ms ≠ [] then pyMeanQ (ms.map (fun pm => pm.message_loss)) else 0
    avg_out_of_order :=
      if ms ≠ [] then pyMeanQ (ms.map (fun pm => pm.out_of_order)) else 0
    avg_duplicates :=
      if ms ≠ [] then pyMeanQ (ms.map (fun pm => pm.duplicates)) else 0
    avg_mean_gap :=
      if ms ≠ [] then pyMeanQ (ms.map (fun pm => pm.mean_gap)) else 0 }

/-- `Analyzer.calculate_results`, the `avg_std_dev_gap` field (lines
211–213). -/
noncomputable def avg_std_dev_gap (delay : ℤ) (received : List (ℤ × Dict)) : ℝ :=
  let ms := received.filterMap (fun p => perPublisherMetrics delay p.2)
  if ms ≠ [] then pyMeanR (ms.map (fun pm => stdOfGaps pm.gaps)) else 0

/-!
Division-checked variants of the metrics computation.  Every `/` of the
source is replaced by `divQ?`/`divR?`, which refuses a zero divisor; each
division keeps exactly the guard the source puts around it.  Proving the
checked computation always returns `some` of the unchecked one
establishes that `calculate_results` never divides by zero.
-/

/-- Division refusing a zero divisor. -/
def divQ? (a b : ℚ) : Option ℚ := if b = 0 then none else some (a / b)

/-- Division refusing a zero divisor. -/
noncomputable def divR? (a b : ℝ) : Option ℝ := if b = 0 then none else some (a / b)

/-- Checked `statistics.mean` on integers. -/
def pyMean? (l : List ℤ) : Option ℚ := divQ? (l.sum : ℚ) (l.length : ℚ)

/-- Checked `statistics.mean` on rationals. -/
def pyMeanQ? (l : List ℚ) : Option ℚ := divQ? l.sum (l.length : ℚ)

/-- Checked `statistics.mean` on reals. -/
noncomputable def pyMeanR? (l : List ℝ) : Option ℝ := divR? l.sum (l.length : ℝ)

/-- Checked `message_loss`. -/
def message_loss_of? (delay : ℤ) (m : Dict) : Option ℚ :=
  let e := expected_messages delay (sortedCounters m)
  if 0 < e then (divQ? (actualCount m : ℚ) (e : ℚ)).map (fun r => 100 * (1 - r))
  else some 0

/-- Checked `out_of_order_percentage`. -/
def out_of_order_percentage? (m : Dict) : Option ℚ :=
  if 0 < actualCount m then
    divQ? (100 * (outOfOrderCount (sortedCounters m) : ℚ)) (actualCount m : ℚ)
  else some 0

/-- Checked `duplicate_percentage`. -/
def duplicates_percentage? (m : Dict) : Option ℚ :=
  if 0 < actualCount m then
    divQ? (100 * (duplicateCount (sortedCounters m) : ℚ)) (actualCount m : ℚ)
  else some 0

/-- Checked `mean_gap`. -/
def mean_gap_of? (m : Dict) : Option ℚ :=
  if gapsOf m ≠ [] then pyMean? (gapsOf m) else some 0

/-- Checked sample variance (the mean inside and the `n - 1` divisor are
both checked). -/
def sampleVariance? (l : List ℤ) : Option ℚ :=
  (pyMean? l).bind (fun mu =>
    divQ? ((l.map (fun x => ((x : ℚ) - mu) ^ 2)).sum) ((l.length : ℚ) - 1))

/-- Checked `statistics.stdev`. -/
noncomputable def stdev? (l : List ℤ) : Option ℝ := (sampleVariance? l).map Real.sqrt

/-- Checked `std_dev_gap`, with the source's `len(gaps) > 1` guard. -/
noncomputable def stdOfGaps? (g : List ℤ) : Option ℝ :=
  if g ≠ [] then (if 1 < g.length then stdev? g else some 0) else some 0

/-- Checked per-publisher loop body. -/
def perPublisherMetrics? (delay : ℤ) (m : Dict) : Option (Option PubMetrics) :=
  if sortedCounters m = [] then some none
  else
    (message_loss_of? delay m).bind (fun loss =>
    (out_of_order_percentage? m).bind (fun ooo =>
    (duplicates_percentage? m).bind (fun dup =>
    (mean_gap_of? m).bind (fun mg =>
    some (some ⟨loss, ooo, dup, mg, gapsOf m⟩)))))

/-- Checked `calculate_results`, rational part. -/
def calculate_resultsChecked (delay : ℤ) (received : List (ℤ × Dict)) (test_duration : ℚ) :
    Option RunResultQ :=
  (if 0 < test_duration then divQ? (totalMessages received : ℚ) test_duration
   else some 0).bind (fun rate =>
  (received.mapM (fun p => perPublisherMetrics? delay p.2)).bind (fun msOpts =>
  (fun ms : List PubMetrics =>
    (if ms ≠ [] then pyMeanQ? (ms.map (fun pm => pm.message_loss))
     else some 0).bind (fun al =>
    (if ms ≠ [] then pyMeanQ? (ms.map (fun pm => pm.out_of_order))
     else some 0).bind (fun ao =>
    (if ms ≠ [] then pyMeanQ? (ms.map (fun pm => pm.duplicates))
     else some 0).bind (fun ad =>
    (if ms ≠ [] then pyMeanQ? (ms.map (fun pm => pm.mean_gap))
     else some 0).bind (fun am =>
    some ⟨rate, al, ao, ad, am⟩)))))
    (msOpts.filterMap id)))

/-- Checked `avg_std_dev_gap`. -/
noncomputable def avg_std_dev_gapChecked (delay : ℤ) (received : List (ℤ × Dict)) :
    Option ℝ :=
  (received.mapM (fun p => perPublisherMetrics? delay p.2)).bind (fun msOpts =>
  (fun ms : List PubMetrics =>
    (ms.mapM (fun pm => stdOfGaps? pm.gaps)).bind (fun stds =>
    if ms ≠ [] then pyMeanR? stds else some 0))
    (msOpts.filterMap id))

/-!
Concrete scenarios used by the theorems below.
-/

/-- A single-publisher run whose raw receipt sequence is `[0, 1, 1, 2]`:
four data messages arrive on the publisher-1 data topic, sequence `1`
twice. -/
def dupRunTraffic : List (PyStr × PyStr) :=
  [(("counter/1/0/0/0").data, ("0:1000:x").data),
   (("counter/1/0/0/0").data, ("1:1100:x").data),
   (("counter/1/0/0/0").data, ("1:1105:x").data),
   (("counter/1/0/0/0").data, ("2:1250:x").data)]

/-- The analyzer state after ingesting `dupRunTraffic` from a fresh
state. -/
def dupRunState : State :=
  dupRunTraffic.foldl (fun s q => on_message s q.1 q.2) ⟨[], []⟩

/-- The dict the analyzer holds for publisher 1 after `dupRunTraffic`. -/
def dupDict : Dict := [(0, 1000), (1, 1105), (2, 1250)]

/-- Receipts `{0: 1000, 1: 1100, 2: 1250}` (sequence : timestamp ms). -/
def gapDict : Dict := [(0, 1000), (1, 1100), (2, 1250)]

/-- Receipts `{0: 1000, 2: 1300}` — sequence 1 absent. -/
def gapDictMissing : Dict := [(0, 1000), (2, 1300)]

/-- Ten receipts with sequences `0..9`, none lost. -/
def noLossDict : Dict :=
  [(0, 1000), (1, 1100), (2, 1200), (3, 1300), (4, 1400),
   (5, 1500), (6, 1600), (7, 1700), (8, 1800), (9, 1900)]

/-- Nine receipts with sequences `0..8` — message 9 itself lost. -/
def maskedLossDict : Dict :=
  [(0, 1000), (1, 1100), (2, 1200), (3, 1300), (4, 1400),
   (5, 1500), (6, 1600), (7, 1700), (8, 1800)]

end MQTT.Analyzer

/-!
Theorems.
-/

namespace MQTT.Analyzer

open MQTT.Float64

theorem sortedCounters_sorted (m : Dict) : (sortedCounters m).Sorted (· ≤ ·) :=
  List.sorted_insertionSort _ _

theorem sortedCounters_perm (m : Dict) : List.Perm (sortedCounters m) (dictKeys m) :=
  List.perm_insertionSort _ _

theorem sortedCounters_eq_nil_iff (m : Dict) : sortedCounters m = [] ↔ m = [] := by
  constructor
  · intro h
    have hlen := (sortedCounters_perm m).length_eq
    rw [h] at hlen
    have : dictKeys m = [] := List.eq_nil_of_length_eq_zero hlen.symm
    simpa [dictKeys] using congrArg List.length this
  · intro h
    subst h
    rfl

theorem outOfOrderCount_of_sorted : ∀ l : List ℤ, l.Sorted (· ≤ ·) → outOfOrderCount l = 0 := by
  intro l
  induction l with
  | nil => intro _; rfl
  | cons a t ih =>
    intro h
    cases t with
    | nil => rfl
    | cons b t' =>
      have h' := List.sorted_cons.mp h
      have hab : a ≤ b := h'.1 b (List.mem_cons_self b t')
      have hrec : outOfOrderCount (b :: t') = 0 := ih h'.2
      show ((a, b) :: ((b :: t').zip t')).countP (fun q => decide (q.2 < q.1)) = 0
      rw [List.countP_cons]
      have hfalse : (decide (b < a)) = false := decide_eq_false (not_lt.mpr hab)
      rw [hfalse]
      simp only [Bool.false_eq_true, if_false, add_zero]
      exact hrec

theorem pyMeanQ_of_zeros (l : List ℚ) (h : ∀ x ∈ l, x = 0) : pyMeanQ l = 0 := by
  rw [pyMeanQ, List.sum_eq_zero h, zero_div]

theorem perPublisherMetrics_eq (delay : ℤ) (m : Dict) (h : m ≠ []) :
    perPublisherMetrics delay m = some
      { message_loss := message_loss_of delay m
        out_of_order := out_of_order_percentage m
        duplicates := duplicates_percentage m
        mean_gap := mean_gap_of m
        gaps := gapsOf m } := by
  rw [perPublisherMetrics, if_neg]
  simpa [sortedCounters_eq_nil_iff] using h

theorem msList_eq (delay : ℤ) (received : List (ℤ × Dict)) :
    received.filterMap (fun p => perPublisherMetrics delay p.2) =
      (received.filter (fun p => decide (p.2 ≠ []))).map
        (fun p =>
          ({ message_loss := message_loss_of delay p.2
             out_of_order := out_of_order_percentage p.2
             duplicates := duplicates_percentage p.2
             mean_gap := mean_gap_of p.2
             gaps := gapsOf p.2 } : PubMetrics)) := by
  induction received with
  | nil => rfl
  | cons p rest ih =>
    by_cases hp : p.2 = []
    · have hnone : perPublisherMetrics delay ([] : Dict) = none := by
        rw [perPublisherMetrics, if_pos ((sortedCounters_eq_nil_iff ([] : Dict)).mpr rfl)]
      simp [List.filterMap_cons, List.filter_cons, hp, hnone, ih]
    · simp [List.filterMap_cons, List.filter_cons, perPublisherMetrics_eq delay p.2 hp, hp, ih]

/-- C3.  The out-of-order metric is identically zero: the scan iterates
the sequence numbers in sorted order and counts an element only when its
predecessor in that iteration is strictly larger, which never happens, so
both the per-publisher percentage and the run-level average are `0` for
every observed stream. -/
theorem out_of_order_metric_identically_zero :
    (∀ m : Dict, out_of_order_percentage m = 0) ∧
      (∀ (delay : ℤ) (received : List (ℤ × Dict)) (test_duration : ℚ),
        (calculate_results delay received test_duration).avg_out_of_order = 0) := by
  have hper : ∀ m : Dict, out_of_order_percentage m = 0 := by
    intro m
    rw [out_of_order_percentage, outOfOrderCount_of_sorted _ (sortedCounters_sorted m)]
    simp
  refine ⟨hper, ?_⟩
  intro delay received test_duration
  have hcr : (calculate_results delay received test_duration).avg_out_of_order =
      (if received.filterMap (fun p => perPublisherMetrics delay p.2) ≠ [] then
        pyMeanQ ((received.filterMap (fun p => perPublisherMetrics delay p.2)).map
          (fun pm => pm.out_of_order))
      else 0) := rfl
  rw [hcr, msList_eq]
  by_cases hne : (received.filter (fun p => decide (p.2 ≠ []))).map
      (fun p =>
        ({ message_loss := message_loss_of delay p.2
           out_of_order := out_of_order_percentage p.2
           duplicates := duplicates_percentage p.2
           mean_gap := mean_gap_of p.2
           gaps := gapsOf p.2 } : PubMetrics)) = []
  · rw [if_neg (fun hcon => hcon hne)]
  · rw [if_pos hne]
    apply pyMeanQ_of_zeros
    intro x hx
    simp only [List.map_map, List.mem_map] at hx
    obtain ⟨p, _, hpx⟩ := hx
    simpa [hper p.2] using hpx.symm

end MQTT.Analyzer

namespace MQTT.Analyzer

/-- C7.  Error handling of malformed data messages: whenever a message on
a `counter/` topic fails to parse (colon-delimited payload fields or the
topic's publisher-id segment not an integer), `Analyzer.on_message`
returns without raising and the observed stream `messages_received` is
exactly what it was before — no partial insertion, since every parsing
step of the `try:` block precedes the first mutation. -/
theorem malformed_counter_message_leaves_stream_unchanged :
    ∀ (s : State) (topic payload : PyStr),
      counterTopicPre.isPrefixOf topic = true →
      parseCounterMessage topic payload = none →
      (on_message s topic payload).messages_received = s.messages_received := by
  intro s topic payload _ hparse
  by_cases hsys : sysTopicPre.isPrefixOf topic
  · simp [on_message, hsys]
  · by_cases hcnt : counterTopicPre.isPrefixOf topic
    · simp [on_message, hsys, hcnt, hparse]
    · simp [on_message, hsys, hcnt]

/-- Witness for C7 at a concrete malformed payload. -/
theorem malformed_counter_message_leaves_stream_unchanged_witness :
    counterTopicPre.isPrefixOf (("counter/1/0/0/0").data) = true ∧
      parseCounterMessage (("counter/1/0/0/0").data) (("garbage").data) = none ∧
      (on_message ⟨[(7, [(0, 5)])], []⟩ (("counter/1/0/0/0").data)
          (("garbage").data)).messages_received = [(7, [(0, 5)])] :=
  ⟨by decide, by decide,
    malformed_counter_message_leaves_stream_unchanged ⟨[(7, [(0, 5)])], []⟩
      (("counter/1/0/0/0").data) (("garbage").data) (by decide) (by decide)⟩

end MQTT.Analyzer

namespace MQTT.Publisher

/-- C8.  Publisher activation: on a `request/go` message an agent calls
`start_publishing` (entering the publishing state, `running = true`) if
and only if its `instance_id` is at most the most recently received
`instancecount`; an agent with `instance_id > instancecount` gets
`running = false` and does not start the publish loop, hence emits no
messages for that run. -/
theorem go_signal_activates_iff_selected :
    ∀ (p : State) (payload : PyStr),
      (((on_message p topicGo payload).1.running = true ∧
          (on_message p topicGo payload).2 = true) ↔
        p.instance_id ≤ p.instancecount) ∧
      (p.instancecount < p.instance_id →
        (on_message p topicGo payload).1.running = false ∧
        (on_message p topicGo payload).2 = false) := by
  intro p payload
  have h1 : topicGo ≠ topicQos := by decide
  have h2 : topicGo ≠ topicDelay := by decide
  have h3 : topicGo ≠ topicMessagesize := by decide
  have h4 : topicGo ≠ topicInstancecount := by decide
  by_cases hle : p.instance_id ≤ p.instancecount
  · constructor
    · simp [on_message, h1, h2, h3, h4, hle]
    · intro hlt
      exact absurd hle (not_le.mpr hlt)
  · constructor
    · simp [on_message, h1, h2, h3, h4, hle]
    · intro _
      simp [on_message, h1, h2, h3, h4, hle]

/-- Witness for C8: instance 3 with `instancecount = 5` activates, and
instance 9 with `instancecount = 5` is deactivated. -/
theorem go_signal_activates_iff_selected_witness :
    (3 : ℤ) ≤ 5 ∧
      (on_message ⟨3, 0, 100, 0, 5, false⟩ topicGo (("1").data)).1.running = true ∧
      (5 : ℤ) < 9 ∧
      (on_message ⟨9, 0, 100, 0, 5, true⟩ topicGo (("1").data)).1.running = false :=
  ⟨by decide,
    ((go_signal_activates_iff_selected ⟨3, 0, 100, 0, 5, false⟩ (("1").data)).1.mpr
      (by decide)).1,
    by decide,
    ((go_signal_activates_iff_selected ⟨9, 0, 100, 0, 5, true⟩ (("1").data)).2
      (by decide)).1⟩

theorem publishLoop_eq (p : State) (ts : List ℤ) :
    ∀ c : ℕ,
      publishLoop p c ts =
        ((List.range' c ts.length).zip ts).map
          (fun q => (dataTopic p, messagePayload q.1 q.2 p.messagesize)) := by
  induction ts with
  | nil => intro c; rfl
  | cons t ts ih =>
    intro c
    show (dataTopic p, messagePayload c t p.messagesize) :: publishLoop p (c + 1) ts = _
    rw [ih (c + 1)]
    rw [show (t :: ts).length = ts.length + 1 from rfl, List.range'_succ c ts.length 1]
    rfl

/-- C9.  Publisher wire format and sequencing: a run that performs
`n` loop iterations (at recorded timestamps `ts`) publishes exactly the
messages `(dataTopic p, "{i}:{ts[i]}:{filler}")` for `i = 0, 1, …, n-1` in
that order — the sequence numbers are precisely `0, 1, 2, …`, each
payload is the colon-separated `sequence:timestamp:filler` text, every
message goes to `counter/{id}/{qos}/{delay}/{size}`, and the filler is
the `'x'`-character run of length `messagesize`. -/
theorem publish_messages_wire_format :
    ∀ (p : State) (ts : List ℤ),
      publish_messages p ts =
        ((List.range ts.length).zip ts).map
          (fun q => (dataTopic p, messagePayload q.1 q.2 p.messagesize)) ∧
      (xString p.messagesize).length = p.messagesize.toNat := by
  intro p ts
  constructor
  · rw [publish_messages, publishLoop_eq p ts 0, List.range_eq_range']
  · simp [xString]

end MQTT.Publisher

namespace MQTT.Analyzer

/-- C1 (behaviour of the code at the claimed input).  Feeding the
analyzer the raw receipt sequence `[0, 1, 1, 2]` for publisher 1: the
duplicate receipt collapses at ingestion, because `messages_received`
keys receipts by sequence number (the second receipt of sequence 1 merely
overwrites the stored timestamp).  The engine then sees 3 distinct
sequences, and its `duplicate_count = len(sorted_counters) -
len(set(sorted_counters))` is computed over the already-deduplicated key
list, so the reported duplicates percentage is `0` — not the `25` the
claim requires — and no separate raw received-count exists anywhere in
the state. -/
theorem duplicate_receipts_collapse_to_zero :
    dupRunState.messages_received = [(1, dupDict)] ∧
    (sortedCounters dupDict).dedup.length = 3 ∧
    duplicateCount (sortedCounters dupDict) = 0 ∧
    duplicates_percentage dupDict = 0 ∧
    (calculate_results 0 [(1, dupDict)] 2).avg_duplicates = 0 := by
  have hdupc : duplicateCount (sortedCounters dupDict) = 0 := by decide
  have hact : actualCount dupDict = 3 := by decide
  have hdup : duplicates_percentage dupDict = 0 := by
    rw [duplicates_percentage, hdupc, hact]
    norm_num
  refine ⟨by decide, by decide, hdupc, hdup, ?_⟩
  have hpm := perPublisherMetrics_eq 0 dupDict (by decide)
  have hms : [((1 : ℤ), dupDict)].filterMap (fun p => perPublisherMetrics 0 p.2) =
      [{ message_loss := message_loss_of 0 dupDict
         out_of_order := out_of_order_percentage dupDict
         duplicates := duplicates_percentage dupDict
         mean_gap := mean_gap_of dupDict
         gaps := gapsOf dupDict }] := by
    simp [List.filterMap_cons, hpm]
  have hcr : (calculate_results 0 [((1 : ℤ), dupDict)] 2).avg_duplicates =
      (if [((1 : ℤ), dupDict)].filterMap (fun p => perPublisherMetrics 0 p.2) ≠ [] then
        pyMeanQ (([((1 : ℤ), dupDict)].filterMap
          (fun p => perPublisherMetrics 0 p.2)).map (fun pm => pm.duplicates))
      else 0) := rfl
  rw [hcr, hms]
  simp [pyMeanQ, hdup]

/-- C4.  Gap computation: for receipts `{0:1000, 1:1100, 2:1250}` the gap
samples are `[100, 150]` (pairs of consecutive sequence numbers both
present, timestamp difference), the mean gap is `125`, and the standard
deviation is the sample (n-1) standard deviation of `[100, 150]` (whose
variance is `1250`).  For `{0:1000, 2:1300}` no consecutive pair exists:
zero gap samples and mean gap `0`.  With fewer than two gap samples the
standard deviation is `0`, and every gap sample comes from a pair
`(k, k+1)` of present sequence numbers as the difference of their
recorded timestamps. -/
theorem gap_computation :
    gapsOf gapDict = [100, 150] ∧
    mean_gap_of gapDict = 125 ∧
    sampleVariance [100, 150] = 1250 ∧
    std_dev_gap_of gapDict = stdev [100, 150] ∧
    gapsOf gapDictMissing = [] ∧
    mean_gap_of gapDictMissing = 0 ∧
    (∀ m : Dict, (gapsOf m).length < 2 → std_dev_gap_of m = 0) ∧
    (∀ (m : Dict) (g : ℤ), g ∈ gapsOf m →
      ∃ k : ℤ, k ∈ dictKeys m ∧ k + 1 ∈ dictKeys m ∧
        g = dictGet m (k + 1) - dictGet m k) := by
  have h1 : gapsOf gapDict = [100, 150] := by decide
  have h5 : gapsOf gapDictMissing = [] := by decide
  refine ⟨h1, ?_, ?_, ?_, h5, ?_, ?_, ?_⟩
  · rw [mean_gap_of, h1]
    norm_num [pyMean]
    decide
  · norm_num [sampleVariance, pyMean]
  · rw [std_dev_gap_of, h1]
    simp [stdOfGaps]
  · rw [mean_gap_of, h5]
    simp
  · intro m hlen
    rw [std_dev_gap_of, stdOfGaps]
    by_cases hg : gapsOf m = []
    · simp [hg]
    · rw [if_pos hg, if_neg (by omega)]
  · intro m g hg
    rw [gapsOf] at hg
    obtain ⟨⟨a, b⟩, hmem, hsome⟩ := List.mem_filterMap.mp hg
    by_cases hb : b = a + 1
    · refine ⟨a, ?_, ?_, ?_⟩
      · exact (sortedCounters_perm m).mem_iff.mp (List.of_mem_zip hmem).1
      · rw [← hb]
        exact (sortedCounters_perm m).mem_iff.mp
          (List.mem_of_mem_tail (List.of_mem_zip hmem).2)
      · rw [← hb]
        simpa [hb] using hsome.symm
    · simp [hb] at hsome

/-- Witness for C4: the universally quantified clause applied to the
missing-consecutive dict, which has fewer than two gap samples. -/
theorem gap_computation_witness :
    (gapsOf gapDictMissing).length < 2 ∧ std_dev_gap_of gapDictMissing = 0 :=
  ⟨by decide, gap_computation.2.2.2.2.2.2.1 gapDictMissing (by decide)⟩

theorem le_foldl_max (l : List ℤ) : ∀ a : ℤ, a ≤ l.foldl max a := by
  induction l with
  | nil => intro a; exact le_refl a
  | cons b t ih =>
    intro a
    exact le_trans (le_max_left a b) (ih (max a b))

theorem listMax_nonneg (l : List ℤ) (hne : l ≠ []) (h : ∀ x ∈ l, 0 ≤ x) :
    0 ≤ listMax l := by
  cases l with
  | nil => exact absurd rfl hne
  | cons a t =>
    exact le_trans (h a (List.mem_cons_self a t)) (le_foldl_max t a)

/-- C5.  For zero inter-message delay, the expected count of a publisher
with a non-empty observed sequence set (of non-negative sequence numbers,
as the data model guarantees) is the largest observed sequence plus one,
and the loss percentage is the unclamped `100 * (1 - actual/expected)`.
Receipts `0..9` give `expectedCount = 10` and zero loss; when message 9
itself is lost (receipts `0..8`) the expected count recomputes to 9 and
the loss of that message is masked: the reported loss is again `0`. -/
theorem zero_delay_expected_count :
    (∀ m : Dict, m ≠ [] → (∀ k ∈ dictKeys m, 0 ≤ k) →
      expected_messages 0 (sortedCounters m) = listMax (sortedCounters m) + 1 ∧
      message_loss_of 0 m =
        100 * (1 - (actualCount m : ℚ) / ((listMax (sortedCounters m) + 1 : ℤ) : ℚ))) ∧
    expected_messages 0 (sortedCounters noLossDict) = 10 ∧
    message_loss_of 0 noLossDict = 0 ∧
    expected_messages 0 (sortedCounters maskedLossDict) = 9 ∧
    message_loss_of 0 maskedLossDict = 0 := by
  have hgen : ∀ m : Dict, m ≠ [] → (∀ k ∈ dictKeys m, 0 ≤ k) →
      expected_messages 0 (sortedCounters m) = listMax (sortedCounters m) + 1 ∧
      message_loss_of 0 m =
        100 * (1 - (actualCount m : ℚ) / ((listMax (sortedCounters m) + 1 : ℤ) : ℚ)) := by
    intro m hne hnn
    have hexp : expected_messages 0 (sortedCounters m) = listMax (sortedCounters m) + 1 := by
      rw [expected_messages, if_pos rfl]
    have hscne : sortedCounters m ≠ [] := by
      intro hcon
      exact hne ((sortedCounters_eq_nil_iff m).mp hcon)
    have hmax : 0 ≤ listMax (sortedCounters m) :=
      listMax_nonneg _ hscne
        (fun x hx => hnn x ((sortedCounters_perm m).mem_iff.mp hx))
    have hpos : 0 < listMax (sortedCounters m) + 1 := by omega
    refine ⟨hexp, ?_⟩
    rw [message_loss_of]
    simp only [hexp]
    rw [if_pos hpos]
  refine ⟨hgen, ?_, ?_, ?_, ?_⟩
  · decide
  · have h10 : expected_messages 0 (sortedCounters noLossDict) = 10 := by decide
    have ha : actualCount noLossDict = 10 := by decide
    rw [message_loss_of]
    simp only [h10, ha]
    norm_num
  · decide
  · have h9 : expected_messages 0 (sortedCounters maskedLossDict) = 9 := by decide
    have ha : actualCount maskedLossDict = 9 := by decide
    rw [message_loss_of]
    simp only [h9, ha]
    norm_num

/-- Witness for C5: the general clause applied to the ten-receipt
dict. -/
theorem zero_delay_expected_count_witness :
    noLossDict ≠ [] ∧
      expected_messages 0 (sortedCounters noLossDict) =
        listMax (sortedCounters noLossDict) + 1 :=
  ⟨by decide, (zero_delay_expected_count.1 noLossDict (by decide) (by decide)).1⟩

end MQTT.Analyzer

namespace MQTT.Analyzer

theorem msMap_eq (delay : ℤ) (received : List (ℤ × Dict)) (f : PubMetrics → ℚ) :
    ((received.filterMap (fun p => perPublisherMetrics delay p.2)).map f) =
      (received.filter (fun p => decide (p.2 ≠ []))).map
        (fun p => f
          { message_loss := message_loss_of delay p.2
            out_of_order := out_of_order_percentage p.2
            duplicates := duplicates_percentage p.2
            mean_gap := mean_gap_of p.2
            gaps := gapsOf p.2 }) := by
  rw [msList_eq, List.map_map]
  rfl

theorem msList_ne_nil_iff (delay : ℤ) (received : List (ℤ × Dict)) :
    (received.filterMap (fun p => perPublisherMetrics delay p.2) ≠ []) ↔
      (received.filter (fun p => decide (p.2 ≠ [])) ≠ []) := by
  rw [msList_eq]
  simp

/-- C6.  Aggregation: when at least one publisher has a non-empty
observed stream, every run-level average metric (loss, out-of-order,
duplicates, mean gap, stddev gap) is the unweighted arithmetic mean of
the per-publisher values taken over exactly the publishers with
non-empty streams; a publisher with an empty stream contributes no value
at all (prepending one leaves the whole result record unchanged); and
the message rate is the sum of all publishers' actual counts divided by
the elapsed wall-clock duration. -/
theorem aggregation_unweighted_mean :
    ∀ (delay : ℤ) (received : List (ℤ × Dict)) (test_duration : ℚ) (i : ℤ),
      ((received.filter (fun p => decide (p.2 ≠ []))) ≠ [] →
        (calculate_results delay received test_duration).avg_message_loss =
          pyMeanQ ((received.filter (fun p => decide (p.2 ≠ []))).map
            (fun p => message_loss_of delay p.2)) ∧
        (calculate_results delay received test_duration).avg_out_of_order =
          pyMeanQ ((received.filter (fun p => decide (p.2 ≠ []))).map
            (fun p => out_of_order_percentage p.2)) ∧
        (calculate_results delay received test_duration).avg_duplicates =
          pyMeanQ ((received.filter (fun p => decide (p.2 ≠ []))).map
            (fun p => duplicates_percentage p.2)) ∧
        (calculate_results delay received test_duration).avg_mean_gap =
          pyMeanQ ((received.filter (fun p => decide (p.2 ≠ []))).map
            (fun p => mean_gap_of p.2)) ∧
        avg_std_dev_gap delay received =
          pyMeanR ((received.filter (fun p => decide (p.2 ≠ []))).map
            (fun p => std_dev_gap_of p.2))) ∧
      (0 < test_duration →
        (calculate_results delay received test_duration).message_rate =
          ((received.map (fun p => (actualCount p.2 : ℚ))).sum) / test_duration) ∧
      calculate_results delay ((i, ([] : Dict)) :: received) test_duration =
        calculate_results delay received test_duration ∧
      avg_std_dev_gap delay ((i, ([] : Dict)) :: received) =
        avg_std_dev_gap delay received := by
  intro delay received test_duration i
  have hnil : perPublisherMetrics delay ([] : Dict) = none := by
    rw [perPublisherMetrics, if_pos ((sortedCounters_eq_nil_iff ([] : Dict)).mpr rfl)]
  refine ⟨?_, ?_, ?_, ?_⟩
  · intro hne
    have hne' : received.filterMap (fun p => perPublisherMetrics delay p.2) ≠ [] :=
      (msList_ne_nil_iff delay received).mpr hne
    refine ⟨?_, ?_, ?_, ?_, ?_⟩
    · have hcr : (calculate_results delay received test_duration).avg_message_loss =
          (if received.filterMap (fun p => perPublisherMetrics delay p.2) ≠ [] then
            pyMeanQ ((received.filterMap (fun p => perPublisherMetrics delay p.2)).map
              (fun pm => pm.message_loss))
          else 0) := rfl
      rw [hcr, if_pos hne', msMap_eq]
    · have hcr : (calculate_results delay received test_duration).avg_out_of_order =
          (if received.filterMap (fun p => perPublisherMetrics delay p.2) ≠ [] then
            pyMeanQ ((received.filterMap (fun p => perPublisherMetrics delay p.2)).map
              (fun pm => pm.out_of_order))
          else 0) := rfl
      rw [hcr, if_pos hne', msMap_eq]
    · have hcr : (calculate_results delay received test_duration).avg_duplicates =
          (if received.filterMap (fun p => perPublisherMetrics delay p.2) ≠ [] then
            pyMeanQ ((received.filterMap (fun p => perPublisherMetrics delay p.2)).map
              (fun pm => pm.duplicates))
          else 0) := rfl
      rw [hcr, if_pos hne', msMap_eq]
    · have hcr : (calculate_results delay received test_duration).avg_mean_gap =
          (if received.filterMap (fun p => perPublisherMetrics delay p.2) ≠ [] then
            pyMeanQ ((received.filterMap (fun p => perPublisherMetrics delay p.2)).map
              (fun pm => pm.mean_gap))
          else 0) := rfl
      rw [hcr, if_pos hne', msMap_eq]
    · have hcr : avg_std_dev_gap delay received =
          (if received.filterMap (fun p => perPublisherMetrics delay p.2) ≠ [] then
            pyMeanR ((received.filterMap (fun p => perPublisherMetrics delay p.2)).map
              (fun pm => stdOfGaps pm.gaps))
          else 0) := rfl
      rw [hcr, if_pos hne', msList_eq, List.map_map]
      rfl
  · intro hdur
    have hcr : (calculate_results delay received test_duration).message_rate =
        (if 0 < test_duration then (totalMessages received : ℚ) / test_duration else 0) := rfl
    rw [hcr, if_pos hdur, totalMessages]
    rw [Nat.cast_list_sum, List.map_map]
    rfl
  · have hrate : totalMessages ((i, ([] : Dict)) :: received) = totalMessages received := by
      simp [totalMessages]
    have hfm : ((i, ([] : Dict)) :: received).filterMap
        (fun p => perPublisherMetrics delay p.2) =
        received.filterMap (fun p => perPublisherMetrics delay p.2) := by
      rw [List.filterMap_cons]
      simp [hnil]
    show RunResultQ.mk _ _ _ _ _ = RunResultQ.mk _ _ _ _ _
    rw [hrate, hfm]
  · have hfm : ((i, ([] : Dict)) :: received).filterMap
        (fun p => perPublisherMetrics delay p.2) =
        received.filterMap (fun p => perPublisherMetrics delay p.2) := by
      rw [List.filterMap_cons]
      simp [hnil]
    show (if _ ≠ ([] : List PubMetrics) then _ else (0 : ℝ)) = _
    rw [hfm]
    rfl

/-- Witness for C6 at a concrete one-publisher run. -/
theorem aggregation_unweighted_mean_witness :
    ([((1 : ℤ), [((0 : ℤ), (5 : ℤ))])].filter (fun p => decide (p.2 ≠ []))) ≠ [] ∧
      (0 : ℚ) < 1 ∧
      (calculate_results 0 [((1 : ℤ), [((0 : ℤ), (5 : ℤ))])] 1).message_rate =
        (([((1 : ℤ), [((0 : ℤ), (5 : ℤ))])].map (fun p => (actualCount p.2 : ℚ))).sum) / 1 :=
  ⟨by decide, by decide,
    (aggregation_unweighted_mean 0 [((1 : ℤ), [((0 : ℤ), (5 : ℤ))])] 1 7).2.1 (by decide)⟩

end MQTT.Analyzer

namespace MQTT.Analyzer

theorem divQ?_eq (a b : ℚ) (h : b ≠ 0) : divQ? a b = some (a / b) := by
  rw [divQ?, if_neg h]

theorem divR?_eq (a b : ℝ) (h : b ≠ 0) : divR? a b = some (a / b) := by
  rw [divR?, if_neg h]

theorem pyMean?_eq (l : List ℤ) (h : l ≠ []) : pyMean? l = some (pyMean l) := by
  have hlen : (l.length : ℚ) ≠ 0 := by
    simpa using fun hcon => h (List.length_eq_zero.mp hcon)
  rw [pyMean?, divQ?_eq _ _ hlen, pyMean]

theorem pyMeanQ?_eq (l : List ℚ) (h : l ≠ []) : pyMeanQ? l = some (pyMeanQ l) := by
  have hlen : (l.length : ℚ) ≠ 0 := by
    simpa using fun hcon => h (List.length_eq_zero.mp hcon)
  rw [pyMeanQ?, divQ?_eq _ _ hlen, pyMeanQ]

theorem pyMeanR?_eq (l : List ℝ) (h : l ≠ []) : pyMeanR? l = some (pyMeanR l) := by
  have hlen : (l.length : ℝ) ≠ 0 := by
    simpa using fun hcon => h (List.length_eq_zero.mp hcon)
  rw [pyMeanR?, divR?_eq _ _ hlen, pyMeanR]

theorem message_loss_of?_eq (delay : ℤ) (m : Dict) :
    message_loss_of? delay m = some (message_loss_of delay m) := by
  rw [message_loss_of?, message_loss_of]
  by_cases he : 0 < expected_messages delay (sortedCounters m)
  · rw [if_pos he, if_pos he,
      divQ?_eq _ _
        (by exact_mod_cast ne_of_gt he :
          ((expected_messages delay (sortedCounters m) : ℚ)) ≠ 0)]
    rfl
  · rw [if_neg he, if_neg he]

theorem out_of_order_percentage?_eq (m : Dict) :
    out_of_order_percentage? m = some (out_of_order_percentage m) := by
  rw [out_of_order_percentage?, out_of_order_percentage]
  by_cases ha : 0 < actualCount m
  · rw [if_pos ha, if_pos ha,
      divQ?_eq _ _
        (by exact_mod_cast Nat.pos_iff_ne_zero.mp ha : ((actualCount m : ℚ)) ≠ 0)]
  · rw [if_neg ha, if_neg ha]

theorem duplicates_percentage?_eq (m : Dict) :
    duplicates_percentage? m = some (duplicates_percentage m) := by
  rw [duplicates_percentage?, duplicates_percentage]
  by_cases ha : 0 < actualCount m
  · rw [if_pos ha, if_pos ha,
      divQ?_eq _ _
        (by exact_mod_cast Nat.pos_iff_ne_zero.mp ha : ((actualCount m : ℚ)) ≠ 0)]
  · rw [if_neg ha, if_neg ha]

theorem mean_gap_of?_eq (m : Dict) : mean_gap_of? m = some (mean_gap_of m) := by
  rw [mean_gap_of?, mean_gap_of]
  by_cases hg : gapsOf m ≠ []
  · rw [if_pos hg, if_pos hg, pyMean?_eq _ hg]
  · rw [if_neg hg, if_neg hg]

theorem sampleVariance?_eq (l : List ℤ) (h : 1 < l.length) :
    sampleVariance? l = some (sampleVariance l) := by
  have hne : l ≠ [] := by
    intro hcon
    rw [hcon] at h
    exact absurd h (by decide)
  have hden : ((l.length : ℚ) - 1) ≠ 0 := by
    have : (2 : ℚ) ≤ (l.length : ℚ) := by exact_mod_cast h
    linarith
  rw [sampleVariance?, pyMean?_eq _ hne, Option.some_bind,
    divQ?_eq _ _ hden, sampleVariance]

theorem stdOfGaps?_eq (g : List ℤ) : stdOfGaps? g = some (stdOfGaps g) := by
  rw [stdOfGaps?, stdOfGaps]
  by_cases hg : g ≠ []
  · rw [if_pos hg, if_pos hg]
    by_cases hlen : 1 < g.length
    · rw [if_pos hlen, if_pos hlen, stdev?, sampleVariance?_eq _ hlen]
      rfl
    · rw [if_neg hlen, if_neg hlen]
  · rw [if_neg hg, if_neg hg]

theorem perPublisherMetrics?_eq (delay : ℤ) (m : Dict) :
    perPublisherMetrics? delay m = some (perPublisherMetrics delay m) := by
  by_cases h : sortedCounters m = []
  · rw [perPublisherMetrics?, perPublisherMetrics, if_pos h, if_pos h]
  · rw [perPublisherMetrics?, perPublisherMetrics, if_neg h, if_neg h,
      message_loss_of?_eq, out_of_order_percentage?_eq, duplicates_percentage?_eq,
      mean_gap_of?_eq]
    rfl

theorem mapM_eq_map {α β : Type} (f : α → Option β) (g : α → β) :
    ∀ l : List α, (∀ a ∈ l, f a = some (g a)) → l.mapM f = some (l.map g) := by
  intro l
  induction l with
  | nil => intro _; rfl
  | cons a t ih =>
    intro h
    rw [List.mapM_cons, h a (List.mem_cons_self a t),
      ih (fun b hb => h b (List.mem_cons_of_mem a hb))]
    rfl

/-- C10.  The metrics computation is total: replacing every division of
`calculate_results` by a checked division that refuses a zero divisor —
while keeping exactly the guards the source code places around each
division (`expected_messages > 0` for the loss, `actual_messages > 0` for
the out-of-order and duplicate percentages, `test_duration > 0` for the
rate, `len(gaps) > 1` for the sample standard deviation, non-emptiness
for every mean) — always succeeds and returns exactly the unchecked
result, for every delay, observed stream, and elapsed duration. -/
theorem calculate_results_never_divides_by_zero :
    ∀ (delay : ℤ) (received : List (ℤ × Dict)) (test_duration : ℚ),
      calculate_resultsChecked delay received test_duration =
        some (calculate_results delay received test_duration) ∧
      avg_std_dev_gapChecked delay received = some (avg_std_dev_gap delay received) := by
  intro delay received dur
  have hmapM : received.mapM (fun p => perPublisherMetrics? delay p.2) =
      some (received.map (fun p => perPublisherMetrics delay p.2)) :=
    mapM_eq_map _ _ received (fun a _ => perPublisherMetrics?_eq delay a.2)
  have hfmid : (received.map (fun p => perPublisherMetrics delay p.2)).filterMap id =
      received.filterMap (fun p => perPublisherMetrics delay p.2) := by
    rw [List.filterMap_map]
    rfl
  have hrate : (if 0 < dur then divQ? (totalMessages received : ℚ) dur else some 0) =
      some (if 0 < dur then (totalMessages received : ℚ) / dur else 0) := by
    by_cases hd : 0 < dur
    · rw [if_pos hd, if_pos hd, divQ?_eq _ _ (ne_of_gt hd)]
    · rw [if_neg hd, if_neg hd]
  have havg : ∀ f : PubMetrics → ℚ,
      (if received.filterMap (fun p => perPublisherMetrics delay p.2) ≠ [] then
        pyMeanQ? ((received.filterMap (fun p => perPublisherMetrics delay p.2)).map f)
      else some 0) =
      some (if received.filterMap (fun p => perPublisherMetrics delay p.2) ≠ [] then
        pyMeanQ ((received.filterMap (fun p => perPublisherMetrics delay p.2)).map f)
      else 0) := by
    intro f
    by_cases hne : received.filterMap (fun p => perPublisherMetrics delay p.2) ≠ []
    · rw [if_pos hne, if_pos hne,
        pyMeanQ?_eq _ (fun hcon => hne (List.map_eq_nil_iff.mp hcon))]
    · rw [if_neg hne, if_neg hne]
  constructor
  · rw [calculate_resultsChecked, hrate, Option.some_bind, hmapM, Option.some_bind]
    simp only [hfmid]
    rw [havg (fun pm => pm.message_loss), Option.some_bind]
    rw [havg (fun pm => pm.out_of_order), Option.some_bind]
    rw [havg (fun pm => pm.duplicates), Option.some_bind]
    rw [havg (fun pm => pm.mean_gap), Option.some_bind]
    rfl
  · rw [avg_std_dev_gapChecked, hmapM, Option.some_bind]
    simp only [hfmid]
    rw [mapM_eq_map _ _ (received.filterMap (fun p => perPublisherMetrics delay p.2))
        (fun a _ => stdOfGaps?_eq a.gaps),
      Option.some_bind]
    by_cases hne : received.filterMap (fun p => perPublisherMetrics delay p.2) ≠ []
    · rw [if_pos hne,
        pyMeanR?_eq _ (fun hcon => hne (List.map_eq_nil_iff.mp hcon)),
        avg_std_dev_gap]
      rw [if_pos hne]
    · rw [if_neg hne, avg_std_dev_gap]
      rw [if_neg hne]

end MQTT.Analyzer

namespace MQTT.Float64

theorem roundHalfEven_abs (q : ℚ) : |((roundHalfEven q : ℤ) : ℚ) - q| ≤ 1 / 2 := by
  simp only [roundHalfEven]
  have h1 : ((⌊q⌋ : ℤ) : ℚ) ≤ q := Int.floor_le q
  have h2 : q < ⌊q⌋ + 1 := Int.lt_floor_add_one q
  by_cases hlt : q - ⌊q⌋ < 1 / 2
  · rw [if_pos hlt, abs_le]
    constructor <;> linarith
  · rw [if_neg hlt]
    by_cases hgt : 1 / 2 < q - ⌊q⌋
    · rw [if_pos hgt]
      rw [abs_le]
      push_cast
      constructor <;> linarith
    · rw [if_neg hgt]
      have heq : q - ⌊q⌋ = 1 / 2 := le_antisymm (not_lt.mp hgt) (not_lt.mp hlt)
      by_cases he : ⌊q⌋ % 2 = 0
      · rw [if_pos he, abs_le]
        constructor <;> linarith
      · rw [if_neg he]
        push_cast
        rw [abs_le]
        constructor <;> linarith

theorem roundHalfEven_eq_of_abs_lt (s : ℚ) (m : ℤ) (h : |s - (m : ℚ)| < 1 / 2) :
    roundHalfEven s = m := by
  rw [abs_lt] at h
  simp only [roundHalfEven]
  by_cases hle : (m : ℚ) ≤ s
  · have hfl : ⌊s⌋ = m := by
      rw [Int.floor_eq_iff]
      constructor
      · exact hle
      · linarith [h.2]
    rw [hfl, if_pos (by linarith [h.2] : s - (m : ℤ) < 1 / 2)]
  · have hfl : ⌊s⌋ = m - 1 := by
      rw [Int.floor_eq_iff]
      constructor
      · push_cast
        linarith [h.1]
      · push_cast
        linarith [not_le.mp hle]
    rw [hfl]
    have hfrac : 1 / 2 < s - ((m - 1 : ℤ) : ℚ) := by
      push_cast
      linarith [h.1]
    rw [if_neg (not_lt.mpr (le_of_lt hfrac)), if_pos hfrac]
    omega

theorem fl_err (q : ℚ) (hq : 0 < q) : |fl q - q| ≤ q * 2 ^ (-52 : ℤ) := by
  rw [fl, if_pos hq]
  set e := Int.log 2 q with he
  set s := q * 2 ^ ((52 : ℤ) - e) with hs
  have h2 : (0 : ℚ) < 2 := by norm_num
  have hpow : ∀ t : ℤ, (0 : ℚ) < 2 ^ t := fun t => zpow_pos h2 t
  have hqs : q = s * 2 ^ (e - 52) := by
    rw [hs, mul_assoc, ← zpow_add₀ (ne_of_gt h2)]
    rw [show (52 : ℤ) - e + (e - 52) = 0 from by ring, zpow_zero, mul_one]
  have key : ((roundHalfEven s : ℤ) : ℚ) * 2 ^ (e - 52) - q =
      (((roundHalfEven s : ℤ) : ℚ) - s) * 2 ^ (e - 52) := by
    rw [hqs]
    ring
  rw [key, abs_mul, abs_of_pos (hpow (e - 52))]
  have hb := roundHalfEven_abs s
  have hstep : |((roundHalfEven s : ℤ) : ℚ) - s| * 2 ^ (e - 52) ≤
      (1 / 2) * 2 ^ (e - 52) :=
    mul_le_mul_of_nonneg_right hb (le_of_lt (hpow _))
  have hle2 : (2 : ℚ) ^ e ≤ q := Int.zpow_log_le_self (by norm_num) hq
  have hsplit : ((1 : ℚ) / 2) * 2 ^ (e - 52) = 2 ^ e * ((1 / 2) * 2 ^ (-52 : ℤ)) := by
    rw [show e - 52 = e + (-52 : ℤ) from by ring, zpow_add₀ (ne_of_gt h2)]
    ring
  have hfinal : ((1 : ℚ) / 2) * 2 ^ (e - 52) ≤ q * 2 ^ (-52 : ℤ) := by
    rw [hsplit]
    have hmono : (2 : ℚ) ^ e * ((1 / 2) * 2 ^ (-52 : ℤ)) ≤ q * ((1 / 2) * 2 ^ (-52 : ℤ)) :=
      mul_le_mul_of_nonneg_right hle2 (by positivity)
    have hhalf : q * ((1 / 2) * 2 ^ (-52 : ℤ)) ≤ q * 2 ^ (-52 : ℤ) := by
      have := hpow (-52 : ℤ)
      nlinarith
    linarith
  exact le_trans hstep hfinal

theorem fl_lb (q : ℚ) (hq : 0 < q) : q * (1 - 2 ^ (-52 : ℤ)) ≤ fl q := by
  have h := fl_err q hq
  rw [abs_le] at h
  nlinarith [h.1]

theorem fl_ub (q : ℚ) (hq : 0 < q) : fl q ≤ q * (1 + 2 ^ (-52 : ℤ)) := by
  have h := fl_err q hq
  rw [abs_le] at h
  nlinarith [h.2]

theorem fl_pos (q : ℚ) (hq : 0 < q) : 0 < fl q := by
  have h := fl_lb q hq
  have heps : ((2 : ℚ) ^ (-52 : ℤ)) < 1 := by
    rw [show (-52 : ℤ) = -(52 : ℕ) from by norm_num, zpow_neg, zpow_natCast]
    rw [inv_lt_one_iff₀]
    right
    norm_num
  nlinarith

end MQTT.Float64

namespace MQTT.Float64

theorem eps_eq : ((2 : ℚ) ^ (-52 : ℤ)) = 1 / 4503599627370496 := by
  rw [show (-52 : ℤ) = -(52 : ℕ) from by norm_num, zpow_neg, zpow_natCast]
  norm_num

theorem trunc_fl_fl_of_not_dvd (d : ℤ) (hd : 0 < d) (hnd : ¬ d ∣ 30000) :
    truncQ (fl (30 * fl (1000 / (d : ℚ)))) = ⌊(30000 : ℚ) / (d : ℚ)⌋ := by
  have hdq : (0 : ℚ) < (d : ℚ) := by exact_mod_cast hd
  have hq1 : (0 : ℚ) < 1000 / (d : ℚ) := by positivity
  have hx_lb := fl_lb _ hq1
  have hx_ub := fl_ub _ hq1
  have hxpos : 0 < fl (1000 / (d : ℚ)) := fl_pos _ hq1
  have hzpos : (0 : ℚ) < 30 * fl (1000 / (d : ℚ)) := by positivity
  have hy_lb := fl_lb _ hzpos
  have hy_ub := fl_ub _ hzpos
  have hypos : 0 < fl (30 * fl (1000 / (d : ℚ))) := fl_pos _ hzpos
  rw [eps_eq] at hx_lb hx_ub hy_lb hy_ub
  set x := fl (1000 / (d : ℚ))
  set y := fl (30 * x)
  set a : ℚ := 30000 / (d : ℚ) with ha
  have hapos : (0 : ℚ) < a := by positivity
  have h30 : (30 : ℚ) * (1000 / (d : ℚ)) = a := by
    rw [ha]
    ring
  -- lower bound: a * (1 - 2^-50) ≤ y
  have hz_lb : a * (1 - 1 / 4503599627370496) ≤ 30 * x := by
    have h := mul_le_mul_of_nonneg_left hx_lb (show (0 : ℚ) ≤ 30 from by norm_num)
    calc a * (1 - 1 / 4503599627370496)
        = 30 * (1000 / (d : ℚ) * (1 - 1 / 4503599627370496)) := by rw [← h30]; ring
      _ ≤ 30 * x := h
  have hy2 : a * (1 - 1 / 4503599627370496) * (1 - 1 / 4503599627370496) ≤ y := by
    have h := mul_le_mul_of_nonneg_right hz_lb
      (show (0 : ℚ) ≤ 1 - 1 / 4503599627370496 from by norm_num)
    linarith
  have hy_close_lb : a * (1 - 1 / 1125899906842624) ≤ y := by
    have hnum : (1 : ℚ) - 1 / 1125899906842624 ≤
        (1 - 1 / 4503599627370496) * (1 - 1 / 4503599627370496) := by norm_num
    have := mul_le_mul_of_nonneg_left hnum (le_of_lt hapos)
    calc a * (1 - 1 / 1125899906842624)
        ≤ a * ((1 - 1 / 4503599627370496) * (1 - 1 / 4503599627370496)) := this
      _ = a * (1 - 1 / 4503599627370496) * (1 - 1 / 4503599627370496) := by ring
      _ ≤ y := hy2
  -- upper bound: y ≤ a * (1 + 2^-50)
  have hz_ub : 30 * x ≤ a * (1 + 1 / 4503599627370496) := by
    have h := mul_le_mul_of_nonneg_left hx_ub (show (0 : ℚ) ≤ 30 from by norm_num)
    calc (30 : ℚ) * x ≤ 30 * (1000 / (d : ℚ) * (1 + 1 / 4503599627370496)) := h
      _ = a * (1 + 1 / 4503599627370496) := by rw [← h30]; ring
  have hy3 : y ≤ a * (1 + 1 / 4503599627370496) * (1 + 1 / 4503599627370496) := by
    have h := mul_le_mul_of_nonneg_right hz_ub
      (show (0 : ℚ) ≤ 1 + 1 / 4503599627370496 from by norm_num)
    linarith
  have hy_close_ub : y ≤ a * (1 + 1 / 1125899906842624) := by
    have hnum2 : ((1 : ℚ) + 1 / 4503599627370496) * (1 + 1 / 4503599627370496) ≤
        1 + 1 / 1125899906842624 := by norm_num
    have := mul_le_mul_of_nonneg_left hnum2 (le_of_lt hapos)
    calc y ≤ a * (1 + 1 / 4503599627370496) * (1 + 1 / 4503599627370496) := hy3
      _ = a * ((1 + 1 / 4503599627370496) * (1 + 1 / 4503599627370496)) := by ring
      _ ≤ a * (1 + 1 / 1125899906842624) := this
  -- division with remainder: a = N + r/d with 1 ≤ r ≤ d - 1
  have hdd := Int.ediv_add_emod 30000 d
  set N := (30000 : ℤ) / d with hN
  set r := (30000 : ℤ) % d with hr
  have hr0 : 0 ≤ r := Int.emod_nonneg 30000 (ne_of_gt hd)
  have hrd : r < d := Int.emod_lt_of_pos 30000 hd
  have hrne : r ≠ 0 := fun hcon => hnd (Int.dvd_of_emod_eq_zero hcon)
  have hr1 : 1 ≤ r := lt_of_le_of_ne hr0 (Ne.symm hrne)
  have haval2 : a = (N : ℚ) + (r : ℚ) / (d : ℚ) := by
    have hcast : ((30000 : ℤ) : ℚ) = ((d : ℤ) : ℚ) * ((N : ℤ) : ℚ) + ((r : ℤ) : ℚ) := by
      rw [← Int.cast_mul, ← Int.cast_add, hdd]
    rw [ha]
    rw [show ((30000 : ℤ) : ℚ) = (30000 : ℚ) from by norm_num] at hcast
    rw [hcast, add_div, mul_comm, mul_div_assoc, div_self (ne_of_gt hdq), mul_one]
  have hdr : (r : ℚ) ≤ (d : ℚ) - 1 := by
    have : r + 1 ≤ d := hrd
    exact_mod_cast Int.le_sub_one_of_lt hrd
  have hr1q : (1 : ℚ) ≤ (r : ℚ) := by exact_mod_cast hr1
  have hinvd : (0 : ℚ) < 1 / (d : ℚ) := by positivity
  have ha_lb : (N : ℚ) + 1 / (d : ℚ) ≤ a := by
    rw [haval2]
    linarith [(div_le_div_iff_of_pos_right hdq).mpr hr1q]
  have ha_ub : a ≤ (N : ℚ) + 1 - 1 / (d : ℚ) := by
    rw [haval2]
    have h1 : (r : ℚ) / (d : ℚ) ≤ ((d : ℚ) - 1) / (d : ℚ) :=
      (div_le_div_iff_of_pos_right hdq).mpr hdr
    have h2 : ((d : ℚ) - 1) / (d : ℚ) = 1 - 1 / (d : ℚ) := by
      rw [sub_div, div_self (ne_of_gt hdq)]
    linarith
  -- the rounding error is below 1/d
  have hE : a * (1 / 1125899906842624) < 1 / (d : ℚ) := by
    have had : a * (d : ℚ) = 30000 := by
      rw [ha]
      field_simp
    rw [← mul_lt_mul_right hdq]
    have h1 : (1 : ℚ) / (d : ℚ) * (d : ℚ) = 1 := by field_simp
    rw [h1]
    calc a * (1 / 1125899906842624) * (d : ℚ)
        = a * (d : ℚ) * (1 / 1125899906842624) := by ring
      _ = 30000 * (1 / 1125899906842624) := by rw [had]
      _ < 1 := by norm_num
  have hNy : (N : ℚ) < y := by nlinarith
  have hyN1 : y < (N : ℚ) + 1 := by nlinarith
  have hfloorY : ⌊y⌋ = N := by
    rw [Int.floor_eq_iff]
    exact ⟨le_of_lt hNy, by linarith⟩
  have hfloorA : ⌊a⌋ = N := by
    rw [Int.floor_eq_iff]
    constructor
    · linarith
    · linarith
  rw [truncQ, if_neg (not_lt.mpr (le_of_lt hypos)), hfloorY, hfloorA]

end MQTT.Float64

namespace MQTT.Float64

theorem fl_eval (q : ℚ) (e : ℤ) (k : ℕ) (m : ℤ)
    (hq : 0 < q) (hk : (k : ℤ) = 52 - e)
    (hlo : (2 : ℚ) ^ e ≤ q) (hhi : q < 2 ^ (e + 1))
    (h1 : (2 * (m : ℚ) - 1) < 2 * (q * 2 ^ k)) (h2 : 2 * (q * 2 ^ k) < 2 * (m : ℚ) + 1) :
    fl q = (m : ℚ) / 2 ^ k := by
  have hlog : Int.log 2 q = e := by
    have hub := (Int.lt_zpow_iff_log_lt (by norm_num) hq).mp hhi
    have hlb := (Int.zpow_le_iff_le_log (by norm_num) hq).mp hlo
    exact le_antisymm (Int.lt_add_one_iff.mp hub) hlb
  have hzk : ((2 : ℚ) ^ ((52 : ℤ) - e)) = 2 ^ k := by
    rw [← hk, zpow_natCast]
  have hrhe : roundHalfEven (q * 2 ^ ((52 : ℤ) - e)) = m := by
    rw [hzk]
    apply roundHalfEven_eq_of_abs_lt
    rw [abs_lt]
    constructor <;> linarith
  rw [fl, if_pos hq, hlog, hrhe]
  rw [show e - 52 = -(k : ℤ) from by omega, zpow_neg, zpow_natCast, div_eq_mul_inv]

end MQTT.Float64

namespace MQTT.Float64

theorem flCase1 :
    truncQ (fl (30 * fl (1000 / ((1 : ℤ) : ℚ)))) = ⌊(30000 : ℚ) / ((1 : ℤ) : ℚ)⌋ := by
  have hfl1 : fl (1000 / ((1 : ℤ) : ℚ)) = (8796093022208000 : ℚ) / 2 ^ 43 := by
    apply fl_eval _ (9) 43 8796093022208000 (by norm_num) (by norm_num)
    · norm_num
    · norm_num
    · norm_num
    · norm_num
  have hfl2 : fl (30 * ((8796093022208000 : ℚ) / 2 ^ 43)) = (8246337208320000 : ℚ) / 2 ^ 38 := by
    apply fl_eval _ (14) 38 8246337208320000 (by norm_num) (by norm_num)
    · norm_num
    · norm_num
    · norm_num
    · norm_num
  rw [hfl1, hfl2]
  have hfy : ⌊(8246337208320000 : ℚ) / 2 ^ 38⌋ = 30000 := by
    rw [Int.floor_eq_iff]
    constructor
    · norm_num
    · norm_num
  have hfa : ⌊(30000 : ℚ) / ((1 : ℤ) : ℚ)⌋ = 30000 := by
    rw [Int.floor_eq_iff]
    constructor
    · norm_num
    · norm_num
  rw [truncQ, if_neg (by norm_num), hfy, hfa]

theorem flCase2 :
    truncQ (fl (30 * fl (1000 / ((2 : ℤ) : ℚ)))) = ⌊(30000 : ℚ) / ((2 : ℤ) : ℚ)⌋ := by
  have hfl1 : fl (1000 / ((2 : ℤ) : ℚ)) = (8796093022208000 : ℚ) / 2 ^ 44 := by
    apply fl_eval _ (8) 44 8796093022208000 (by norm_num) (by norm_num)
    · norm_num
    · norm_num
    · norm_num
    · norm_num
  have hfl2 : fl (30 * ((8796093022208000 : ℚ) / 2 ^ 44)) = (8246337208320000 : ℚ) / 2 ^ 39 := by
    apply fl_eval _ (13) 39 8246337208320000 (by norm_num) (by norm_num)
    · norm_num
    · norm_num
    · norm_num
    · norm_num
  rw [hfl1, hfl2]
  have hfy : ⌊(8246337208320000 : ℚ) / 2 ^ 39⌋ = 15000 := by
    rw [Int.floor_eq_iff]
    constructor
    · norm_num
    · norm_num
  have hfa : ⌊(30000 : ℚ) / ((2 : ℤ) : ℚ)⌋ = 15000 := by
    rw [Int.floor_eq_iff]
    constructor
    · norm_num
    · norm_num
  rw [truncQ, if_neg (by norm_num), hfy, hfa]

theorem flCase3 :
    truncQ (fl (30 * fl (1000 / ((3 : ℤ) : ℚ)))) = ⌊(30000 : ℚ) / ((3 : ℤ) : ℚ)⌋ := by
  have hfl1 : fl (1000 / ((3 : ℤ) : ℚ)) = (5864062014805333 : ℚ) / 2 ^ 44 := by
    apply fl_eval _ (8) 44 5864062014805333 (by norm_num) (by norm_num)
    · norm_num
    · norm_num
    · norm_num
    · norm_num
  have hfl2 : fl (30 * ((5864062014805333 : ℚ) / 2 ^ 44)) = (5497558138880000 : ℚ) / 2 ^ 39 := by
    apply fl_eval _ (13) 39 5497558138880000 (by norm_num) (by norm_num)
    · norm_num
    · norm_num
    · norm_num
    · norm_num
  rw [hfl1, hfl2]
  have hfy : ⌊(5497558138880000 : ℚ) / 2 ^ 39⌋ = 10000 := by
    rw [Int.floor_eq_iff]
    constructor
    · norm_num
    · norm_num
  have hfa : ⌊(30000 : ℚ) / ((3 : ℤ) : ℚ)⌋ = 10000 := by
    rw [Int.floor_eq_iff]
    constructor
    · norm_num
    · norm_num
  rw [truncQ, if_neg (by norm_num), hfy, hfa]

theorem flCase4 :
    truncQ (fl (30 * fl (1000 / ((4 : ℤ) : ℚ)))) = ⌊(30000 : ℚ) / ((4 : ℤ) : ℚ)⌋ := by
  have hfl1 : fl (1000 / ((4 : ℤ) : ℚ)) = (8796093022208000 : ℚ) / 2 ^ 45 := by
    apply fl_eval _ (7) 45 8796093022208000 (by norm_num) (by norm_num)
    · norm_num
    · norm_num
    · norm_num
    · norm_num
  have hfl2 : fl (30 * ((8796093022208000 : ℚ) / 2 ^ 45)) = (8246337208320000 : ℚ) / 2 ^ 40 := by
    apply fl_eval _ (12) 40 8246337208320000 (by norm_num) (by norm_num)
    · norm_num
    · norm_num
    · norm_num
    · norm_num
  rw [hfl1, hfl2]
  have hfy : ⌊(8246337208320000 : ℚ) / 2 ^ 40⌋ = 7500 := by
    rw [Int.floor_eq_iff]
    constructor
    · norm_num
    · norm_num
  have hfa : ⌊(30000 : ℚ) / ((4 : ℤ) : ℚ)⌋ = 7500 := by
    rw [Int.floor_eq_iff]
    constructor
    · norm_num
    · norm_num
  rw [truncQ, if_neg (by norm_num), hfy, hfa]

theorem flCase5 :
    truncQ (fl (30 * fl (1000 / ((5 : ℤ) : ℚ)))) = ⌊(30000 : ℚ) / ((5 : ℤ) : ℚ)⌋ := by
  have hfl1 : fl (1000 / ((5 : ℤ) : ℚ)) = (7036874417766400 : ℚ) / 2 ^ 45 := by
    apply fl_eval _ (7) 45 7036874417766400 (by norm_num) (by norm_num)
    · norm_num
    · norm_num
    · norm_num
    · norm_num
  have hfl2 : fl (30 * ((7036874417766400 : ℚ) / 2 ^ 45)) = (6597069766656000 : ℚ) / 2 ^ 40 := by
    apply fl_eval _ (12) 40 6597069766656000 (by norm_num) (by norm_num)
    · norm_num
    · norm_num
    · norm_num
    · norm_num
  rw [hfl1, hfl2]
  have hfy : ⌊(6597069766656000 : ℚ) / 2 ^ 40⌋ = 6000 := by
    rw [Int.floor_eq_iff]
    constructor
    · norm_num
    · norm_num
  have hfa : ⌊(30000 : ℚ) / ((5 : ℤ) : ℚ)⌋ = 6000 := by
    rw [Int.floor_eq_iff]
    constructor
    · norm_num
    · norm_num
  rw [truncQ, if_neg (by norm_num), hfy, hfa]

theorem flCase6 :
    truncQ (fl (30 * fl (1000 / ((6 : ℤ) : ℚ)))) = ⌊(30000 : ℚ) / ((6 : ℤ) : ℚ)⌋ := by
  have hfl1 : fl (1000 / ((6 : ℤ) : ℚ)) = (5864062014805333 : ℚ) / 2 ^ 45 := by
    apply fl_eval _ (7) 45 5864062014805333 (by norm_num) (by norm_num)
    · norm_num
    · norm_num
    · norm_num
    · norm_num
  have hfl2 : fl (30 * ((5864062014805333 : ℚ) / 2 ^ 45)) = (5497558138880000 : ℚ) / 2 ^ 40 := by
    apply fl_eval _ (12) 40 5497558138880000 (by norm_num) (by norm_num)
    · norm_num
    · norm_num
    · norm_num
    · norm_num
  rw [hfl1, hfl2]
  have hfy : ⌊(5497558138880000 : ℚ) / 2 ^ 40⌋ = 5000 := by
    rw [Int.floor_eq_iff]
    constructor
    · norm_num
    · norm_num
  have hfa : ⌊(30000 : ℚ) / ((6 : ℤ) : ℚ)⌋ = 5000 := by
    rw [Int.floor_eq_iff]
    constructor
    · norm_num
    · norm_num
  rw [truncQ, if_neg (by norm_num), hfy, hfa]

theorem flCase8 :
    truncQ (fl (30 * fl (1000 / ((8 : ℤ) : ℚ)))) = ⌊(30000 : ℚ) / ((8 : ℤ) : ℚ)⌋ := by
  have hfl1 : fl (1000 / ((8 : ℤ) : ℚ)) = (8796093022208000 : ℚ) / 2 ^ 46 := by
    apply fl_eval _ (6) 46 8796093022208000 (by norm_num) (by norm_num)
    · norm_num
    · norm_num
    · norm_num
    · norm_num
  have hfl2 : fl (30 * ((8796093022208000 : ℚ) / 2 ^ 46)) = (8246337208320000 : ℚ) / 2 ^ 41 := by
    apply fl_eval _ (11) 41 8246337208320000 (by norm_num) (by norm_num)
    · norm_num
    · norm_num
    · norm_num
    · norm_num
  rw [hfl1, hfl2]
  have hfy : ⌊(8246337208320000 : ℚ) / 2 ^ 41⌋ = 3750 := by
    rw [Int.floor_eq_iff]
    constructor
    · norm_num
    · norm_num
  have hfa : ⌊(30000 : ℚ) / ((8 : ℤ) : ℚ)⌋ = 3750 := by
    rw [Int.floor_eq_iff]
    constructor
    · norm_num
    · norm_num
  rw [truncQ, if_neg (by norm_num), hfy, hfa]

theorem flCase10 :
    truncQ (fl (30 * fl (1000 / ((10 : ℤ) : ℚ)))) = ⌊(30000 : ℚ) / ((10 : ℤ) : ℚ)⌋ := by
  have hfl1 : fl (1000 / ((10 : ℤ) : ℚ)) = (7036874417766400 : ℚ) / 2 ^ 46 := by
    apply fl_eval _ (6) 46 7036874417766400 (by norm_num) (by norm_num)
    · norm_num
    · norm_num
    · norm_num
    · norm_num
  have hfl2 : fl (30 * ((7036874417766400 : ℚ) / 2 ^ 46)) = (6597069766656000 : ℚ) / 2 ^ 41 := by
    apply fl_eval _ (11) 41 6597069766656000 (by norm_num) (by norm_num)
    · norm_num
    · norm_num
    · norm_num
    · norm_num
  rw [hfl1, hfl2]
  have hfy : ⌊(6597069766656000 : ℚ) / 2 ^ 41⌋ = 3000 := by
    rw [Int.floor_eq_iff]
    constructor
    · norm_num
    · norm_num
  have hfa : ⌊(30000 : ℚ) / ((10 : ℤ) : ℚ)⌋ = 3000 := by
    rw [Int.floor_eq_iff]
    constructor
    · norm_num
    · norm_num
  rw [truncQ, if_neg (by norm_num), hfy, hfa]

theorem flCase12 :
    truncQ (fl (30 * fl (1000 / ((12 : ℤ) : ℚ)))) = ⌊(30000 : ℚ) / ((12 : ℤ) : ℚ)⌋ := by
  have hfl1 : fl (1000 / ((12 : ℤ) : ℚ)) = (5864062014805333 : ℚ) / 2 ^ 46 := by
    apply fl_eval _ (6) 46 5864062014805333 (by norm_num) (by norm_num)
    · norm_num
    · norm_num
    · norm_num
    · norm_num
  have hfl2 : fl (30 * ((5864062014805333 : ℚ) / 2 ^ 46)) = (5497558138880000 : ℚ) / 2 ^ 41 := by
    apply fl_eval _ (11) 41 5497558138880000 (by norm_num) (by norm_num)
    · norm_num
    · norm_num
    · norm_num
    · norm_num
  rw [hfl1, hfl2]
  have hfy : ⌊(5497558138880000 : ℚ) / 2 ^ 41⌋ = 2500 := by
    rw [Int.floor_eq_iff]
    constructor
    · norm_num
    · norm_num
  have hfa : ⌊(30000 : ℚ) / ((12 : ℤ) : ℚ)⌋ = 2500 := by
    rw [Int.floor_eq_iff]
    constructor
    · norm_num
    · norm_num
  rw [truncQ, if_neg (by norm_num), hfy, hfa]

theorem flCase15 :
    truncQ (fl (30 * fl (1000 / ((15 : ℤ) : ℚ)))) = ⌊(30000 : ℚ) / ((15 : ℤ) : ℚ)⌋ := by
  have hfl1 : fl (1000 / ((15 : ℤ) : ℚ)) = (4691249611844267 : ℚ) / 2 ^ 46 := by
    apply fl_eval _ (6) 46 4691249611844267 (by norm_num) (by norm_num)
    · norm_num
    · norm_num
    · norm_num
    · norm_num
  have hfl2 : fl (30 * ((4691249611844267 : ℚ) / 2 ^ 46)) = (8796093022208001 : ℚ) / 2 ^ 42 := by
    apply fl_eval _ (10) 42 8796093022208001 (by norm_num) (by norm_num)
    · norm_num
    · norm_num
    · norm_num
    · norm_num
  rw [hfl1, hfl2]
  have hfy : ⌊(8796093022208001 : ℚ) / 2 ^ 42⌋ = 2000 := by
    rw [Int.floor_eq_iff]
    constructor
    · norm_num
    · norm_num
  have hfa : ⌊(30000 : ℚ) / ((15 : ℤ) : ℚ)⌋ = 2000 := by
    rw [Int.floor_eq_iff]
    constructor
    · norm_num
    · norm_num
  rw [truncQ, if_neg (by norm_num), hfy, hfa]

theorem flCase16 :
    truncQ (fl (30 * fl (1000 / ((16 : ℤ) : ℚ)))) = ⌊(30000 : ℚ) / ((16 : ℤ) : ℚ)⌋ := by
  have hfl1 : fl (1000 / ((16 : ℤ) : ℚ)) = (8796093022208000 : ℚ) / 2 ^ 47 := by
    apply fl_eval _ (5) 47 8796093022208000 (by norm_num) (by norm_num)
    · norm_num
    · norm_num
    · norm_num
    · norm_num
  have hfl2 : fl (30 * ((8796093022208000 : ℚ) / 2 ^ 47)) = (8246337208320000 : ℚ) / 2 ^ 42 := by
    apply fl_eval _ (10) 42 8246337208320000 (by norm_num) (by norm_num)
    · norm_num
    · norm_num
    · norm_num
    · norm_num
  rw [hfl1, hfl2]
  have hfy : ⌊(8246337208320000 : ℚ) / 2 ^ 42⌋ = 1875 := by
    rw [Int.floor_eq_iff]
    constructor
    · norm_num
    · norm_num
  have hfa : ⌊(30000 : ℚ) / ((16 : ℤ) : ℚ)⌋ = 1875 := by
    rw [Int.floor_eq_iff]
    constructor
    · norm_num
    · norm_num
  rw [truncQ, if_neg (by norm_num), hfy, hfa]

theorem flCase20 :
    truncQ (fl (30 * fl (1000 / ((20 : ℤ) : ℚ)))) = ⌊(30000 : ℚ) / ((20 : ℤ) : ℚ)⌋ := by
  have hfl1 : fl (1000 / ((20 : ℤ) : ℚ)) = (7036874417766400 : ℚ) / 2 ^ 47 := by
    apply fl_eval _ (5) 47 7036874417766400 (by norm_num) (by norm_num)
    · norm_num
    · norm_num
    · norm_num
    · norm_num
  have hfl2 : fl (30 * ((7036874417766400 : ℚ) / 2 ^ 47)) = (6597069766656000 : ℚ) / 2 ^ 42 := by
    apply fl_eval _ (10) 42 6597069766656000 (by norm_num) (by norm_num)
    · norm_num
    · norm_num
    · norm_num
    · norm_num
  rw [hfl1, hfl2]
  have hfy : ⌊(6597069766656000 : ℚ) / 2 ^ 42⌋ = 1500 := by
    rw [Int.floor_eq_iff]
    constructor
    · norm_num
    · norm_num
  have hfa : ⌊(30000 : ℚ) / ((20 : ℤ) : ℚ)⌋ = 1500 := by
    rw [Int.floor_eq_iff]
    constructor
    · norm_num
    · norm_num
  rw [truncQ, if_neg (by norm_num), hfy, hfa]

theorem flCase24 :
    truncQ (fl (30 * fl (1000 / ((24 : ℤ) : ℚ)))) = ⌊(30000 : ℚ) / ((24 : ℤ) : ℚ)⌋ := by
  have hfl1 : fl (1000 / ((24 : ℤ) : ℚ)) = (5864062014805333 : ℚ) / 2 ^ 47 := by
    apply fl_eval _ (5) 47 5864062014805333 (by norm_num) (by norm_num)
    · norm_num
    · norm_num
    · norm_num
    · norm_num
  have hfl2 : fl (30 * ((5864062014805333 : ℚ) / 2 ^ 47)) = (5497558138880000 : ℚ) / 2 ^ 42 := by
    apply fl_eval _ (10) 42 5497558138880000 (by norm_num) (by norm_num)
    · norm_num
    · norm_num
    · norm_num
    · norm_num
  rw [hfl1, hfl2]
  have hfy : ⌊(5497558138880000 : ℚ) / 2 ^ 42⌋ = 1250 := by
    rw [Int.floor_eq_iff]
    constructor
    · norm_num
    · norm_num
  have hfa : ⌊(30000 : ℚ) / ((24 : ℤ) : ℚ)⌋ = 1250 := by
    rw [Int.floor_eq_iff]
    constructor
    · norm_num
    · norm_num
  rw [truncQ, if_neg (by norm_num), hfy, hfa]

theorem flCase25 :
    truncQ (fl (30 * fl (1000 / ((25 : ℤ) : ℚ)))) = ⌊(30000 : ℚ) / ((25 : ℤ) : ℚ)⌋ := by
  have hfl1 : fl (1000 / ((25 : ℤ) : ℚ)) = (5629499534213120 : ℚ) / 2 ^ 47 := by
    apply fl_eval _ (5) 47 5629499534213120 (by norm_num) (by norm_num)
    · norm_num
    · norm_num
    · norm_num
    · norm_num
  have hfl2 : fl (30 * ((5629499534213120 : ℚ) / 2 ^ 47)) = (5277655813324800 : ℚ) / 2 ^ 42 := by
    apply fl_eval _ (10) 42 5277655813324800 (by norm_num) (by norm_num)
    · norm_num
    · norm_num
    · norm_num
    · norm_num
  rw [hfl1, hfl2]
  have hfy : ⌊(5277655813324800 : ℚ) / 2 ^ 42⌋ = 1200 := by
    rw [Int.floor_eq_iff]
    constructor
    · norm_num
    · norm_num
  have hfa : ⌊(30000 : ℚ) / ((25 : ℤ) : ℚ)⌋ = 1200 := by
    rw [Int.floor_eq_iff]
    constructor
    · norm_num
    · norm_num
  rw [truncQ, if_neg (by norm_num), hfy, hfa]

theorem flCase30 :
    truncQ (fl (30 * fl (1000 / ((30 : ℤ) : ℚ)))) = ⌊(30000 : ℚ) / ((30 : ℤ) : ℚ)⌋ := by
  have hfl1 : fl (1000 / ((30 : ℤ) : ℚ)) = (4691249611844267 : ℚ) / 2 ^ 47 := by
    apply fl_eval _ (5) 47 4691249611844267 (by norm_num) (by norm_num)
    · norm_num
    · norm_num
    · norm_num
    · norm_num
  have hfl2 : fl (30 * ((4691249611844267 : ℚ) / 2 ^ 47)) = (8796093022208001 : ℚ) / 2 ^ 43 := by
    apply fl_eval _ (9) 43 8796093022208001 (by norm_num) (by norm_num)
    · norm_num
    · norm_num
    · norm_num
    · norm_num
  rw [hfl1, hfl2]
  have hfy : ⌊(8796093022208001 : ℚ) / 2 ^ 43⌋ = 1000 := by
    rw [Int.floor_eq_iff]
    constructor
    · norm_num
    · norm_num
  have hfa : ⌊(30000 : ℚ) / ((30 : ℤ) : ℚ)⌋ = 1000 := by
    rw [Int.floor_eq_iff]
    constructor
    · norm_num
    · norm_num
  rw [truncQ, if_neg (by norm_num), hfy, hfa]

theorem flCase40 :
    truncQ (fl (30 * fl (1000 / ((40 : ℤ) : ℚ)))) = ⌊(30000 : ℚ) / ((40 : ℤ) : ℚ)⌋ := by
  have hfl1 : fl (1000 / ((40 : ℤ) : ℚ)) = (7036874417766400 : ℚ) / 2 ^ 48 := by
    apply fl_eval _ (4) 48 7036874417766400 (by norm_num) (by norm_num)
    · norm_num
    · norm_num
    · norm_num
    · norm_num
  have hfl2 : fl (30 * ((7036874417766400 : ℚ) / 2 ^ 48)) = (6597069766656000 : ℚ) / 2 ^ 43 := by
    apply fl_eval _ (9) 43 6597069766656000 (by norm_num) (by norm_num)
    · norm_num
    · norm_num
    · norm_num
    · norm_num
  rw [hfl1, hfl2]
  have hfy : ⌊(6597069766656000 : ℚ) / 2 ^ 43⌋ = 750 := by
    rw [Int.floor_eq_iff]
    constructor
    · norm_num
    · norm_num
  have hfa : ⌊(30000 : ℚ) / ((40 : ℤ) : ℚ)⌋ = 750 := by
    rw [Int.floor_eq_iff]
    constructor
    · norm_num
    · norm_num
  rw [truncQ, if_neg (by norm_num), hfy, hfa]

theorem flCase48 :
    truncQ (fl (30 * fl (1000 / ((48 : ℤ) : ℚ)))) = ⌊(30000 : ℚ) / ((48 : ℤ) : ℚ)⌋ := by
  have hfl1 : fl (1000 / ((48 : ℤ) : ℚ)) = (5864062014805333 : ℚ) / 2 ^ 48 := by
    apply fl_eval _ (4) 48 5864062014805333 (by norm_num) (by norm_num)
    · norm_num
    · norm_num
    · norm_num
    · norm_num
  have hfl2 : fl (30 * ((5864062014805333 : ℚ) / 2 ^ 48)) = (5497558138880000 : ℚ) / 2 ^ 43 := by
    apply fl_eval _ (9) 43 5497558138880000 (by norm_num) (by norm_num)
    · norm_num
    · norm_num
    · norm_num
    · norm_num
  rw [hfl1, hfl2]
  have hfy : ⌊(5497558138880000 : ℚ) / 2 ^ 43⌋ = 625 := by
    rw [Int.floor_eq_iff]
    constructor
    · norm_num
    · norm_num
  have hfa : ⌊(30000 : ℚ) / ((48 : ℤ) : ℚ)⌋ = 625 := by
    rw [Int.floor_eq_iff]
    constructor
    · norm_num
    · norm_num
  rw [truncQ, if_neg (by norm_num), hfy, hfa]

theorem flCase50 :
    truncQ (fl (30 * fl (1000 / ((50 : ℤ) : ℚ)))) = ⌊(30000 : ℚ) / ((50 : ℤ) : ℚ)⌋ := by
  have hfl1 : fl (1000 / ((50 : ℤ) : ℚ)) = (5629499534213120 : ℚ) / 2 ^ 48 := by
    apply fl_eval _ (4) 48 5629499534213120 (by norm_num) (by norm_num)
    · norm_num
    · norm_num
    · norm_num
    · norm_num
  have hfl2 : fl (30 * ((5629499534213120 : ℚ) / 2 ^ 48)) = (5277655813324800 : ℚ) / 2 ^ 43 := by
    apply fl_eval _ (9) 43 5277655813324800 (by norm_num) (by norm_num)
    · norm_num
    · norm_num
    · norm_num
    · norm_num
  rw [hfl1, hfl2]
  have hfy : ⌊(5277655813324800 : ℚ) / 2 ^ 43⌋ = 600 := by
    rw [Int.floor_eq_iff]
    constructor
    · norm_num
    · norm_num
  have hfa : ⌊(30000 : ℚ) / ((50 : ℤ) : ℚ)⌋ = 600 := by
    rw [Int.floor_eq_iff]
    constructor
    · norm_num
    · norm_num
  rw [truncQ, if_neg (by norm_num), hfy, hfa]

theorem flCase60 :
    truncQ (fl (30 * fl (1000 / ((60 : ℤ) : ℚ)))) = ⌊(30000 : ℚ) / ((60 : ℤ) : ℚ)⌋ := by
  have hfl1 : fl (1000 / ((60 : ℤ) : ℚ)) = (4691249611844267 : ℚ) / 2 ^ 48 := by
    apply fl_eval _ (4) 48 4691249611844267 (by norm_num) (by norm_num)
    · norm_num
    · norm_num
    · norm_num
    · norm_num
  have hfl2 : fl (30 * ((4691249611844267 : ℚ) / 2 ^ 48)) = (8796093022208001 : ℚ) / 2 ^ 44 := by
    apply fl_eval _ (8) 44 8796093022208001 (by norm_num) (by norm_num)
    · norm_num
    · norm_num
    · norm_num
    · norm_num
  rw [hfl1, hfl2]
  have hfy : ⌊(8796093022208001 : ℚ) / 2 ^ 44⌋ = 500 := by
    rw [Int.floor_eq_iff]
    constructor
    · norm_num
    · norm_num
  have hfa : ⌊(30000 : ℚ) / ((60 : ℤ) : ℚ)⌋ = 500 := by
    rw [Int.floor_eq_iff]
    constructor
    · norm_num
    · norm_num
  rw [truncQ, if_neg (by norm_num), hfy, hfa]

theorem flCase75 :
    truncQ (fl (30 * fl (1000 / ((75 : ℤ) : ℚ)))) = ⌊(30000 : ℚ) / ((75 : ℤ) : ℚ)⌋ := by
  have hfl1 : fl (1000 / ((75 : ℤ) : ℚ)) = (7505999378950827 : ℚ) / 2 ^ 49 := by
    apply fl_eval _ (3) 49 7505999378950827 (by norm_num) (by norm_num)
    · norm_num
    · norm_num
    · norm_num
    · norm_num
  have hfl2 : fl (30 * ((7505999378950827 : ℚ) / 2 ^ 49)) = (7036874417766400 : ℚ) / 2 ^ 44 := by
    apply fl_eval _ (8) 44 7036874417766400 (by norm_num) (by norm_num)
    · norm_num
    · norm_num
    · norm_num
    · norm_num
  rw [hfl1, hfl2]
  have hfy : ⌊(7036874417766400 : ℚ) / 2 ^ 44⌋ = 400 := by
    rw [Int.floor_eq_iff]
    constructor
    · norm_num
    · norm_num
  have hfa : ⌊(30000 : ℚ) / ((75 : ℤ) : ℚ)⌋ = 400 := by
    rw [Int.floor_eq_iff]
    constructor
    · norm_num
    · norm_num
  rw [truncQ, if_neg (by norm_num), hfy, hfa]

theorem flCase80 :
    truncQ (fl (30 * fl (1000 / ((80 : ℤ) : ℚ)))) = ⌊(30000 : ℚ) / ((80 : ℤ) : ℚ)⌋ := by
  have hfl1 : fl (1000 / ((80 : ℤ) : ℚ)) = (7036874417766400 : ℚ) / 2 ^ 49 := by
    apply fl_eval _ (3) 49 7036874417766400 (by norm_num) (by norm_num)
    · norm_num
    · norm_num
    · norm_num
    · norm_num
  have hfl2 : fl (30 * ((7036874417766400 : ℚ) / 2 ^ 49)) = (6597069766656000 : ℚ) / 2 ^ 44 := by
    apply fl_eval _ (8) 44 6597069766656000 (by norm_num) (by norm_num)
    · norm_num
    · norm_num
    · norm_num
    · norm_num
  rw [hfl1, hfl2]
  have hfy : ⌊(6597069766656000 : ℚ) / 2 ^ 44⌋ = 375 := by
    rw [Int.floor_eq_iff]
    constructor
    · norm_num
    · norm_num
  have hfa : ⌊(30000 : ℚ) / ((80 : ℤ) : ℚ)⌋ = 375 := by
    rw [Int.floor_eq_iff]
    constructor
    · norm_num
    · norm_num
  rw [truncQ, if_neg (by norm_num), hfy, hfa]

theorem flCase100 :
    truncQ (fl (30 * fl (1000 / ((100 : ℤ) : ℚ)))) = ⌊(30000 : ℚ) / ((100 : ℤ) : ℚ)⌋ := by
  have hfl1 : fl (1000 / ((100 : ℤ) : ℚ)) = (5629499534213120 : ℚ) / 2 ^ 49 := by
    apply fl_eval _ (3) 49 5629499534213120 (by norm_num) (by norm_num)
    · norm_num
    · norm_num
    · norm_num
    · norm_num
  have hfl2 : fl (30 * ((5629499534213120 : ℚ) / 2 ^ 49)) = (5277655813324800 : ℚ) / 2 ^ 44 := by
    apply fl_eval _ (8) 44 5277655813324800 (by norm_num) (by norm_num)
    · norm_num
    · norm_num
    · norm_num
    · norm_num
  rw [hfl1, hfl2]
  have hfy : ⌊(5277655813324800 : ℚ) / 2 ^ 44⌋ = 300 := by
    rw [Int.floor_eq_iff]
    constructor
    · norm_num
    · norm_num
  have hfa : ⌊(30000 : ℚ) / ((100 : ℤ) : ℚ)⌋ = 300 := by
    rw [Int.floor_eq_iff]
    constructor
    · norm_num
    · norm_num
  rw [truncQ, if_neg (by norm_num), hfy, hfa]

theorem flCase120 :
    truncQ (fl (30 * fl (1000 / ((120 : ℤ) : ℚ)))) = ⌊(30000 : ℚ) / ((120 : ℤ) : ℚ)⌋ := by
  have hfl1 : fl (1000 / ((120 : ℤ) : ℚ)) = (4691249611844267 : ℚ) / 2 ^ 49 := by
    apply fl_eval _ (3) 49 4691249611844267 (by norm_num) (by norm_num)
    · norm_num
    · norm_num
    · norm_num
    · norm_num
  have hfl2 : fl (30 * ((4691249611844267 : ℚ) / 2 ^ 49)) = (8796093022208001 : ℚ) / 2 ^ 45 := by
    apply fl_eval _ (7) 45 8796093022208001 (by norm_num) (by norm_num)
    · norm_num
    · norm_num
    · norm_num
    · norm_num
  rw [hfl1, hfl2]
  have hfy : ⌊(8796093022208001 : ℚ) / 2 ^ 45⌋ = 250 := by
    rw [Int.floor_eq_iff]
    constructor
    · norm_num
    · norm_num
  have hfa : ⌊(30000 : ℚ) / ((120 : ℤ) : ℚ)⌋ = 250 := by
    rw [Int.floor_eq_iff]
    constructor
    · norm_num
    · norm_num
  rw [truncQ, if_neg (by norm_num), hfy, hfa]

theorem flCase125 :
    truncQ (fl (30 * fl (1000 / ((125 : ℤ) : ℚ)))) = ⌊(30000 : ℚ) / ((125 : ℤ) : ℚ)⌋ := by
  have hfl1 : fl (1000 / ((125 : ℤ) : ℚ)) = (4503599627370496 : ℚ) / 2 ^ 49 := by
    apply fl_eval _ (3) 49 4503599627370496 (by norm_num) (by norm_num)
    · norm_num
    · norm_num
    · norm_num
    · norm_num
  have hfl2 : fl (30 * ((4503599627370496 : ℚ) / 2 ^ 49)) = (8444249301319680 : ℚ) / 2 ^ 45 := by
    apply fl_eval _ (7) 45 8444249301319680 (by norm_num) (by norm_num)
    · norm_num
    · norm_num
    · norm_num
    · norm_num
  rw [hfl1, hfl2]
  have hfy : ⌊(8444249301319680 : ℚ) / 2 ^ 45⌋ = 240 := by
    rw [Int.floor_eq_iff]
    constructor
    · norm_num
    · norm_num
  have hfa : ⌊(30000 : ℚ) / ((125 : ℤ) : ℚ)⌋ = 240 := by
    rw [Int.floor_eq_iff]
    constructor
    · norm_num
    · norm_num
  rw [truncQ, if_neg (by norm_num), hfy, hfa]

theorem flCase150 :
    truncQ (fl (30 * fl (1000 / ((150 : ℤ) : ℚ)))) = ⌊(30000 : ℚ) / ((150 : ℤ) : ℚ)⌋ := by
  have hfl1 : fl (1000 / ((150 : ℤ) : ℚ)) = (7505999378950827 : ℚ) / 2 ^ 50 := by
    apply fl_eval _ (2) 50 7505999378950827 (by norm_num) (by norm_num)
    · norm_num
    · norm_num
    · norm_num
    · norm_num
  have hfl2 : fl (30 * ((7505999378950827 : ℚ) / 2 ^ 50)) = (7036874417766400 : ℚ) / 2 ^ 45 := by
    apply fl_eval _ (7) 45 7036874417766400 (by norm_num) (by norm_num)
    · norm_num
    · norm_num
    · norm_num
    · norm_num
  rw [hfl1, hfl2]
  have hfy : ⌊(7036874417766400 : ℚ) / 2 ^ 45⌋ = 200 := by
    rw [Int.floor_eq_iff]
    constructor
    · norm_num
    · norm_num
  have hfa : ⌊(30000 : ℚ) / ((150 : ℤ) : ℚ)⌋ = 200 := by
    rw [Int.floor_eq_iff]
    constructor
    · norm_num
    · norm_num
  rw [truncQ, if_neg (by norm_num), hfy, hfa]

theorem flCase200 :
    truncQ (fl (30 * fl (1000 / ((200 : ℤ) : ℚ)))) = ⌊(30000 : ℚ) / ((200 : ℤ) : ℚ)⌋ := by
  have hfl1 : fl (1000 / ((200 : ℤ) : ℚ)) = (5629499534213120 : ℚ) / 2 ^ 50 := by
    apply fl_eval _ (2) 50 5629499534213120 (by norm_num) (by norm_num)
    · norm_num
    · norm_num
    · norm_num
    · norm_num
  have hfl2 : fl (30 * ((5629499534213120 : ℚ) / 2 ^ 50)) = (5277655813324800 : ℚ) / 2 ^ 45 := by
    apply fl_eval _ (7) 45 5277655813324800 (by norm_num) (by norm_num)
    · norm_num
    · norm_num
    · norm_num
    · norm_num
  rw [hfl1, hfl2]
  have hfy : ⌊(5277655813324800 : ℚ) / 2 ^ 45⌋ = 150 := by
    rw [Int.floor_eq_iff]
    constructor
    · norm_num
    · norm_num
  have hfa : ⌊(30000 : ℚ) / ((200 : ℤ) : ℚ)⌋ = 150 := by
    rw [Int.floor_eq_iff]
    constructor
    · norm_num
    · norm_num
  rw [truncQ, if_neg (by norm_num), hfy, hfa]

theorem flCase240 :
    truncQ (fl (30 * fl (1000 / ((240 : ℤ) : ℚ)))) = ⌊(30000 : ℚ) / ((240 : ℤ) : ℚ)⌋ := by
  have hfl1 : fl (1000 / ((240 : ℤ) : ℚ)) = (4691249611844267 : ℚ) / 2 ^ 50 := by
    apply fl_eval _ (2) 50 4691249611844267 (by norm_num) (by norm_num)
    · norm_num
    · norm_num
    · norm_num
    · norm_num
  have hfl2 : fl (30 * ((4691249611844267 : ℚ) / 2 ^ 50)) = (8796093022208001 : ℚ) / 2 ^ 46 := by
    apply fl_eval _ (6) 46 8796093022208001 (by norm_num) (by norm_num)
    · norm_num
    · norm_num
    · norm_num
    · norm_num
  rw [hfl1, hfl2]
  have hfy : ⌊(8796093022208001 : ℚ) / 2 ^ 46⌋ = 125 := by
    rw [Int.floor_eq_iff]
    constructor
    · norm_num
    · norm_num
  have hfa : ⌊(30000 : ℚ) / ((240 : ℤ) : ℚ)⌋ = 125 := by
    rw [Int.floor_eq_iff]
    constructor
    · norm_num
    · norm_num
  rw [truncQ, if_neg (by norm_num), hfy, hfa]

theorem flCase250 :
    truncQ (fl (30 * fl (1000 / ((250 : ℤ) : ℚ)))) = ⌊(30000 : ℚ) / ((250 : ℤ) : ℚ)⌋ := by
  have hfl1 : fl (1000 / ((250 : ℤ) : ℚ)) = (4503599627370496 : ℚ) / 2 ^ 50 := by
    apply fl_eval _ (2) 50 4503599627370496 (by norm_num) (by norm_num)
    · norm_num
    · norm_num
    · norm_num
    · norm_num
  have hfl2 : fl (30 * ((4503599627370496 : ℚ) / 2 ^ 50)) = (8444249301319680 : ℚ) / 2 ^ 46 := by
    apply fl_eval _ (6) 46 8444249301319680 (by norm_num) (by norm_num)
    · norm_num
    · norm_num
    · norm_num
    · norm_num
  rw [hfl1, hfl2]
  have hfy : ⌊(8444249301319680 : ℚ) / 2 ^ 46⌋ = 120 := by
    rw [Int.floor_eq_iff]
    constructor
    · norm_num
    · norm_num
  have hfa : ⌊(30000 : ℚ) / ((250 : ℤ) : ℚ)⌋ = 120 := by
    rw [Int.floor_eq_iff]
    constructor
    · norm_num
    · norm_num
  rw [truncQ, if_neg (by norm_num), hfy, hfa]

theorem flCase300 :
    truncQ (fl (30 * fl (1000 / ((300 : ℤ) : ℚ)))) = ⌊(30000 : ℚ) / ((300 : ℤ) : ℚ)⌋ := by
  have hfl1 : fl (1000 / ((300 : ℤ) : ℚ)) = (7505999378950827 : ℚ) / 2 ^ 51 := by
    apply fl_eval _ (1) 51 7505999378950827 (by norm_num) (by norm_num)
    · norm_num
    · norm_num
    · norm_num
    · norm_num
  have hfl2 : fl (30 * ((7505999378950827 : ℚ) / 2 ^ 51)) = (7036874417766400 : ℚ) / 2 ^ 46 := by
    apply fl_eval _ (6) 46 7036874417766400 (by norm_num) (by norm_num)
    · norm_num
    · norm_num
    · norm_num
    · norm_num
  rw [hfl1, hfl2]
  have hfy : ⌊(7036874417766400 : ℚ) / 2 ^ 46⌋ = 100 := by
    rw [Int.floor_eq_iff]
    constructor
    · norm_num
    · norm_num
  have hfa : ⌊(30000 : ℚ) / ((300 : ℤ) : ℚ)⌋ = 100 := by
    rw [Int.floor_eq_iff]
    constructor
    · norm_num
    · norm_num
  rw [truncQ, if_neg (by norm_num), hfy, hfa]

theorem flCase375 :
    truncQ (fl (30 * fl (1000 / ((375 : ℤ) : ℚ)))) = ⌊(30000 : ℚ) / ((375 : ℤ) : ℚ)⌋ := by
  have hfl1 : fl (1000 / ((375 : ℤ) : ℚ)) = (6004799503160661 : ℚ) / 2 ^ 51 := by
    apply fl_eval _ (1) 51 6004799503160661 (by norm_num) (by norm_num)
    · norm_num
    · norm_num
    · norm_num
    · norm_num
  have hfl2 : fl (30 * ((6004799503160661 : ℚ) / 2 ^ 51)) = (5629499534213120 : ℚ) / 2 ^ 46 := by
    apply fl_eval _ (6) 46 5629499534213120 (by norm_num) (by norm_num)
    · norm_num
    · norm_num
    · norm_num
    · norm_num
  rw [hfl1, hfl2]
  have hfy : ⌊(5629499534213120 : ℚ) / 2 ^ 46⌋ = 80 := by
    rw [Int.floor_eq_iff]
    constructor
    · norm_num
    · norm_num
  have hfa : ⌊(30000 : ℚ) / ((375 : ℤ) : ℚ)⌋ = 80 := by
    rw [Int.floor_eq_iff]
    constructor
    · norm_num
    · norm_num
  rw [truncQ, if_neg (by norm_num), hfy, hfa]

theorem flCase400 :
    truncQ (fl (30 * fl (1000 / ((400 : ℤ) : ℚ)))) = ⌊(30000 : ℚ) / ((400 : ℤ) : ℚ)⌋ := by
  have hfl1 : fl (1000 / ((400 : ℤ) : ℚ)) = (5629499534213120 : ℚ) / 2 ^ 51 := by
    apply fl_eval _ (1) 51 5629499534213120 (by norm_num) (by norm_num)
    · norm_num
    · norm_num
    · norm_num
    · norm_num
  have hfl2 : fl (30 * ((5629499534213120 : ℚ) / 2 ^ 51)) = (5277655813324800 : ℚ) / 2 ^ 46 := by
    apply fl_eval _ (6) 46 5277655813324800 (by norm_num) (by norm_num)
    · norm_num
    · norm_num
    · norm_num
    · norm_num
  rw [hfl1, hfl2]
  have hfy : ⌊(5277655813324800 : ℚ) / 2 ^ 46⌋ = 75 := by
    rw [Int.floor_eq_iff]
    constructor
    · norm_num
    · norm_num
  have hfa : ⌊(30000 : ℚ) / ((400 : ℤ) : ℚ)⌋ = 75 := by
    rw [Int.floor_eq_iff]
    constructor
    · norm_num
    · norm_num
  rw [truncQ, if_neg (by norm_num), hfy, hfa]

theorem flCase500 :
    truncQ (fl (30 * fl (1000 / ((500 : ℤ) : ℚ)))) = ⌊(30000 : ℚ) / ((500 : ℤ) : ℚ)⌋ := by
  have hfl1 : fl (1000 / ((500 : ℤ) : ℚ)) = (4503599627370496 : ℚ) / 2 ^ 51 := by
    apply fl_eval _ (1) 51 4503599627370496 (by norm_num) (by norm_num)
    · norm_num
    · norm_num
    · norm_num
    · norm_num
  have hfl2 : fl (30 * ((4503599627370496 : ℚ) / 2 ^ 51)) = (8444249301319680 : ℚ) / 2 ^ 47 := by
    apply fl_eval _ (5) 47 8444249301319680 (by norm_num) (by norm_num)
    · norm_num
    · norm_num
    · norm_num
    · norm_num
  rw [hfl1, hfl2]
  have hfy : ⌊(8444249301319680 : ℚ) / 2 ^ 47⌋ = 60 := by
    rw [Int.floor_eq_iff]
    constructor
    · norm_num
    · norm_num
  have hfa : ⌊(30000 : ℚ) / ((500 : ℤ) : ℚ)⌋ = 60 := by
    rw [Int.floor_eq_iff]
    constructor
    · norm_num
    · norm_num
  rw [truncQ, if_neg (by norm_num), hfy, hfa]

theorem flCase600 :
    truncQ (fl (30 * fl (1000 / ((600 : ℤ) : ℚ)))) = ⌊(30000 : ℚ) / ((600 : ℤ) : ℚ)⌋ := by
  have hfl1 : fl (1000 / ((600 : ℤ) : ℚ)) = (7505999378950827 : ℚ) / 2 ^ 52 := by
    apply fl_eval _ (0) 52 7505999378950827 (by norm_num) (by norm_num)
    · norm_num
    · norm_num
    · norm_num
    · norm_num
  have hfl2 : fl (30 * ((7505999378950827 : ℚ) / 2 ^ 52)) = (7036874417766400 : ℚ) / 2 ^ 47 := by
    apply fl_eval _ (5) 47 7036874417766400 (by norm_num) (by norm_num)
    · norm_num
    · norm_num
    · norm_num
    · norm_num
  rw [hfl1, hfl2]
  have hfy : ⌊(7036874417766400 : ℚ) / 2 ^ 47⌋ = 50 := by
    rw [Int.floor_eq_iff]
    constructor
    · norm_num
    · norm_num
  have hfa : ⌊(30000 : ℚ) / ((600 : ℤ) : ℚ)⌋ = 50 := by
    rw [Int.floor_eq_iff]
    constructor
    · norm_num
    · norm_num
  rw [truncQ, if_neg (by norm_num), hfy, hfa]

theorem flCase625 :
    truncQ (fl (30 * fl (1000 / ((625 : ℤ) : ℚ)))) = ⌊(30000 : ℚ) / ((625 : ℤ) : ℚ)⌋ := by
  have hfl1 : fl (1000 / ((625 : ℤ) : ℚ)) = (7205759403792794 : ℚ) / 2 ^ 52 := by
    apply fl_eval _ (0) 52 7205759403792794 (by norm_num) (by norm_num)
    · norm_num
    · norm_num
    · norm_num
    · norm_num
  have hfl2 : fl (30 * ((7205759403792794 : ℚ) / 2 ^ 52)) = (6755399441055744 : ℚ) / 2 ^ 47 := by
    apply fl_eval _ (5) 47 6755399441055744 (by norm_num) (by norm_num)
    · norm_num
    · norm_num
    · norm_num
    · norm_num
  rw [hfl1, hfl2]
  have hfy : ⌊(6755399441055744 : ℚ) / 2 ^ 47⌋ = 48 := by
    rw [Int.floor_eq_iff]
    constructor
    · norm_num
    · norm_num
  have hfa : ⌊(30000 : ℚ) / ((625 : ℤ) : ℚ)⌋ = 48 := by
    rw [Int.floor_eq_iff]
    constructor
    · norm_num
    · norm_num
  rw [truncQ, if_neg (by norm_num), hfy, hfa]

theorem flCase750 :
    truncQ (fl (30 * fl (1000 / ((750 : ℤ) : ℚ)))) = ⌊(30000 : ℚ) / ((750 : ℤ) : ℚ)⌋ := by
  have hfl1 : fl (1000 / ((750 : ℤ) : ℚ)) = (6004799503160661 : ℚ) / 2 ^ 52 := by
    apply fl_eval _ (0) 52 6004799503160661 (by norm_num) (by norm_num)
    · norm_num
    · norm_num
    · norm_num
    · norm_num
  have hfl2 : fl (30 * ((6004799503160661 : ℚ) / 2 ^ 52)) = (5629499534213120 : ℚ) / 2 ^ 47 := by
    apply fl_eval _ (5) 47 5629499534213120 (by norm_num) (by norm_num)
    · norm_num
    · norm_num
    · norm_num
    · norm_num
  rw [hfl1, hfl2]
  have hfy : ⌊(5629499534213120 : ℚ) / 2 ^ 47⌋ = 40 := by
    rw [Int.floor_eq_iff]
    constructor
    · norm_num
    · norm_num
  have hfa : ⌊(30000 : ℚ) / ((750 : ℤ) : ℚ)⌋ = 40 := by
    rw [Int.floor_eq_iff]
    constructor
    · norm_num
    · norm_num
  rw [truncQ, if_neg (by norm_num), hfy, hfa]

theorem flCase1000 :
    truncQ (fl (30 * fl (1000 / ((1000 : ℤ) : ℚ)))) = ⌊(30000 : ℚ) / ((1000 : ℤ) : ℚ)⌋ := by
  have hfl1 : fl (1000 / ((1000 : ℤ) : ℚ)) = (4503599627370496 : ℚ) / 2 ^ 52 := by
    apply fl_eval _ (0) 52 4503599627370496 (by norm_num) (by norm_num)
    · norm_num
    · norm_num
    · norm_num
    · norm_num
  have hfl2 : fl (30 * ((4503599627370496 : ℚ) / 2 ^ 52)) = (8444249301319680 : ℚ) / 2 ^ 48 := by
    apply fl_eval _ (4) 48 8444249301319680 (by norm_num) (by norm_num)
    · norm_num
    · norm_num
    · norm_num
    · norm_num
  rw [hfl1, hfl2]
  have hfy : ⌊(8444249301319680 : ℚ) / 2 ^ 48⌋ = 30 := by
    rw [Int.floor_eq_iff]
    constructor
    · norm_num
    · norm_num
  have hfa : ⌊(30000 : ℚ) / ((1000 : ℤ) : ℚ)⌋ = 30 := by
    rw [Int.floor_eq_iff]
    constructor
    · norm_num
    · norm_num
  rw [truncQ, if_neg (by norm_num), hfy, hfa]

theorem flCase1200 :
    truncQ (fl (30 * fl (1000 / ((1200 : ℤ) : ℚ)))) = ⌊(30000 : ℚ) / ((1200 : ℤ) : ℚ)⌋ := by
  have hfl1 : fl (1000 / ((1200 : ℤ) : ℚ)) = (7505999378950827 : ℚ) / 2 ^ 53 := by
    apply fl_eval _ (-1) 53 7505999378950827 (by norm_num) (by norm_num)
    · norm_num
    · norm_num
    · norm_num
    · norm_num
  have hfl2 : fl (30 * ((7505999378950827 : ℚ) / 2 ^ 53)) = (7036874417766400 : ℚ) / 2 ^ 48 := by
    apply fl_eval _ (4) 48 7036874417766400 (by norm_num) (by norm_num)
    · norm_num
    · norm_num
    · norm_num
    · norm_num
  rw [hfl1, hfl2]
  have hfy : ⌊(7036874417766400 : ℚ) / 2 ^ 48⌋ = 25 := by
    rw [Int.floor_eq_iff]
    constructor
    · norm_num
    · norm_num
  have hfa : ⌊(30000 : ℚ) / ((1200 : ℤ) : ℚ)⌋ = 25 := by
    rw [Int.floor_eq_iff]
    constructor
    · norm_num
    · norm_num
  rw [truncQ, if_neg (by norm_num), hfy, hfa]

theorem flCase1250 :
    truncQ (fl (30 * fl (1000 / ((1250 : ℤ) : ℚ)))) = ⌊(30000 : ℚ) / ((1250 : ℤ) : ℚ)⌋ := by
  have hfl1 : fl (1000 / ((1250 : ℤ) : ℚ)) = (7205759403792794 : ℚ) / 2 ^ 53 := by
    apply fl_eval _ (-1) 53 7205759403792794 (by norm_num) (by norm_num)
    · norm_num
    · norm_num
    · norm_num
    · norm_num
  have hfl2 : fl (30 * ((7205759403792794 : ℚ) / 2 ^ 53)) = (6755399441055744 : ℚ) / 2 ^ 48 := by
    apply fl_eval _ (4) 48 6755399441055744 (by norm_num) (by norm_num)
    · norm_num
    · norm_num
    · norm_num
    · norm_num
  rw [hfl1, hfl2]
  have hfy : ⌊(6755399441055744 : ℚ) / 2 ^ 48⌋ = 24 := by
    rw [Int.floor_eq_iff]
    constructor
    · norm_num
    · norm_num
  have hfa : ⌊(30000 : ℚ) / ((1250 : ℤ) : ℚ)⌋ = 24 := by
    rw [Int.floor_eq_iff]
    constructor
    · norm_num
    · norm_num
  rw [truncQ, if_neg (by norm_num), hfy, hfa]

theorem flCase1500 :
    truncQ (fl (30 * fl (1000 / ((1500 : ℤ) : ℚ)))) = ⌊(30000 : ℚ) / ((1500 : ℤ) : ℚ)⌋ := by
  have hfl1 : fl (1000 / ((1500 : ℤ) : ℚ)) = (6004799503160661 : ℚ) / 2 ^ 53 := by
    apply fl_eval _ (-1) 53 6004799503160661 (by norm_num) (by norm_num)
    · norm_num
    · norm_num
    · norm_num
    · norm_num
  have hfl2 : fl (30 * ((6004799503160661 : ℚ) / 2 ^ 53)) = (5629499534213120 : ℚ) / 2 ^ 48 := by
    apply fl_eval _ (4) 48 5629499534213120 (by norm_num) (by norm_num)
    · norm_num
    · norm_num
    · norm_num
    · norm_num
  rw [hfl1, hfl2]
  have hfy : ⌊(5629499534213120 : ℚ) / 2 ^ 48⌋ = 20 := by
    rw [Int.floor_eq_iff]
    constructor
    · norm_num
    · norm_num
  have hfa : ⌊(30000 : ℚ) / ((1500 : ℤ) : ℚ)⌋ = 20 := by
    rw [Int.floor_eq_iff]
    constructor
    · norm_num
    · norm_num
  rw [truncQ, if_neg (by norm_num), hfy, hfa]

theorem flCase1875 :
    truncQ (fl (30 * fl (1000 / ((1875 : ℤ) : ℚ)))) = ⌊(30000 : ℚ) / ((1875 : ℤ) : ℚ)⌋ := by
  have hfl1 : fl (1000 / ((1875 : ℤ) : ℚ)) = (4803839602528529 : ℚ) / 2 ^ 53 := by
    apply fl_eval _ (-1) 53 4803839602528529 (by norm_num) (by norm_num)
    · norm_num
    · norm_num
    · norm_num
    · norm_num
  have hfl2 : fl (30 * ((4803839602528529 : ℚ) / 2 ^ 53)) = (9007199254740992 : ℚ) / 2 ^ 49 := by
    apply fl_eval _ (3) 49 9007199254740992 (by norm_num) (by norm_num)
    · norm_num
    · norm_num
    · norm_num
    · norm_num
  rw [hfl1, hfl2]
  have hfy : ⌊(9007199254740992 : ℚ) / 2 ^ 49⌋ = 16 := by
    rw [Int.floor_eq_iff]
    constructor
    · norm_num
    · norm_num
  have hfa : ⌊(30000 : ℚ) / ((1875 : ℤ) : ℚ)⌋ = 16 := by
    rw [Int.floor_eq_iff]
    constructor
    · norm_num
    · norm_num
  rw [truncQ, if_neg (by norm_num), hfy, hfa]

theorem flCase2000 :
    truncQ (fl (30 * fl (1000 / ((2000 : ℤ) : ℚ)))) = ⌊(30000 : ℚ) / ((2000 : ℤ) : ℚ)⌋ := by
  have hfl1 : fl (1000 / ((2000 : ℤ) : ℚ)) = (4503599627370496 : ℚ) / 2 ^ 53 := by
    apply fl_eval _ (-1) 53 4503599627370496 (by norm_num) (by norm_num)
    · norm_num
    · norm_num
    · norm_num
    · norm_num
  have hfl2 : fl (30 * ((4503599627370496 : ℚ) / 2 ^ 53)) = (8444249301319680 : ℚ) / 2 ^ 49 := by
    apply fl_eval _ (3) 49 8444249301319680 (by norm_num) (by norm_num)
    · norm_num
    · norm_num
    · norm_num
    · norm_num
  rw [hfl1, hfl2]
  have hfy : ⌊(8444249301319680 : ℚ) / 2 ^ 49⌋ = 15 := by
    rw [Int.floor_eq_iff]
    constructor
    · norm_num
    · norm_num
  have hfa : ⌊(30000 : ℚ) / ((2000 : ℤ) : ℚ)⌋ = 15 := by
    rw [Int.floor_eq_iff]
    constructor
    · norm_num
    · norm_num
  rw [truncQ, if_neg (by norm_num), hfy, hfa]

theorem flCase2500 :
    truncQ (fl (30 * fl (1000 / ((2500 : ℤ) : ℚ)))) = ⌊(30000 : ℚ) / ((2500 : ℤ) : ℚ)⌋ := by
  have hfl1 : fl (1000 / ((2500 : ℤ) : ℚ)) = (7205759403792794 : ℚ) / 2 ^ 54 := by
    apply fl_eval _ (-2) 54 7205759403792794 (by norm_num) (by norm_num)
    · norm_num
    · norm_num
    · norm_num
    · norm_num
  have hfl2 : fl (30 * ((7205759403792794 : ℚ) / 2 ^ 54)) = (6755399441055744 : ℚ) / 2 ^ 49 := by
    apply fl_eval _ (3) 49 6755399441055744 (by norm_num) (by norm_num)
    · norm_num
    · norm_num
    · norm_num
    · norm_num
  rw [hfl1, hfl2]
  have hfy : ⌊(6755399441055744 : ℚ) / 2 ^ 49⌋ = 12 := by
    rw [Int.floor_eq_iff]
    constructor
    · norm_num
    · norm_num
  have hfa : ⌊(30000 : ℚ) / ((2500 : ℤ) : ℚ)⌋ = 12 := by
    rw [Int.floor_eq_iff]
    constructor
    · norm_num
    · norm_num
  rw [truncQ, if_neg (by norm_num), hfy, hfa]

theorem flCase3000 :
    truncQ (fl (30 * fl (1000 / ((3000 : ℤ) : ℚ)))) = ⌊(30000 : ℚ) / ((3000 : ℤ) : ℚ)⌋ := by
  have hfl1 : fl (1000 / ((3000 : ℤ) : ℚ)) = (6004799503160661 : ℚ) / 2 ^ 54 := by
    apply fl_eval _ (-2) 54 6004799503160661 (by norm_num) (by norm_num)
    · norm_num
    · norm_num
    · norm_num
    · norm_num
  have hfl2 : fl (30 * ((6004799503160661 : ℚ) / 2 ^ 54)) = (5629499534213120 : ℚ) / 2 ^ 49 := by
    apply fl_eval _ (3) 49 5629499534213120 (by norm_num) (by norm_num)
    · norm_num
    · norm_num
    · norm_num
    · norm_num
  rw [hfl1, hfl2]
  have hfy : ⌊(5629499534213120 : ℚ) / 2 ^ 49⌋ = 10 := by
    rw [Int.floor_eq_iff]
    constructor
    · norm_num
    · norm_num
  have hfa : ⌊(30000 : ℚ) / ((3000 : ℤ) : ℚ)⌋ = 10 := by
    rw [Int.floor_eq_iff]
    constructor
    · norm_num
    · norm_num
  rw [truncQ, if_neg (by norm_num), hfy, hfa]

theorem flCase3750 :
    truncQ (fl (30 * fl (1000 / ((3750 : ℤ) : ℚ)))) = ⌊(30000 : ℚ) / ((3750 : ℤ) : ℚ)⌋ := by
  have hfl1 : fl (1000 / ((3750 : ℤ) : ℚ)) = (4803839602528529 : ℚ) / 2 ^ 54 := by
    apply fl_eval _ (-2) 54 4803839602528529 (by norm_num) (by norm_num)
    · norm_num
    · norm_num
    · norm_num
    · norm_num
  have hfl2 : fl (30 * ((4803839602528529 : ℚ) / 2 ^ 54)) = (9007199254740992 : ℚ) / 2 ^ 50 := by
    apply fl_eval _ (2) 50 9007199254740992 (by norm_num) (by norm_num)
    · norm_num
    · norm_num
    · norm_num
    · norm_num
  rw [hfl1, hfl2]
  have hfy : ⌊(9007199254740992 : ℚ) / 2 ^ 50⌋ = 8 := by
    rw [Int.floor_eq_iff]
    constructor
    · norm_num
    · norm_num
  have hfa : ⌊(30000 : ℚ) / ((3750 : ℤ) : ℚ)⌋ = 8 := by
    rw [Int.floor_eq_iff]
    constructor
    · norm_num
    · norm_num
  rw [truncQ, if_neg (by norm_num), hfy, hfa]

theorem flCase5000 :
    truncQ (fl (30 * fl (1000 / ((5000 : ℤ) : ℚ)))) = ⌊(30000 : ℚ) / ((5000 : ℤ) : ℚ)⌋ := by
  have hfl1 : fl (1000 / ((5000 : ℤ) : ℚ)) = (7205759403792794 : ℚ) / 2 ^ 55 := by
    apply fl_eval _ (-3) 55 7205759403792794 (by norm_num) (by norm_num)
    · norm_num
    · norm_num
    · norm_num
    · norm_num
  have hfl2 : fl (30 * ((7205759403792794 : ℚ) / 2 ^ 55)) = (6755399441055744 : ℚ) / 2 ^ 50 := by
    apply fl_eval _ (2) 50 6755399441055744 (by norm_num) (by norm_num)
    · norm_num
    · norm_num
    · norm_num
    · norm_num
  rw [hfl1, hfl2]
  have hfy : ⌊(6755399441055744 : ℚ) / 2 ^ 50⌋ = 6 := by
    rw [Int.floor_eq_iff]
    constructor
    · norm_num
    · norm_num
  have hfa : ⌊(30000 : ℚ) / ((5000 : ℤ) : ℚ)⌋ = 6 := by
    rw [Int.floor_eq_iff]
    constructor
    · norm_num
    · norm_num
  rw [truncQ, if_neg (by norm_num), hfy, hfa]

theorem flCase6000 :
    truncQ (fl (30 * fl (1000 / ((6000 : ℤ) : ℚ)))) = ⌊(30000 : ℚ) / ((6000 : ℤ) : ℚ)⌋ := by
  have hfl1 : fl (1000 / ((6000 : ℤ) : ℚ)) = (6004799503160661 : ℚ) / 2 ^ 55 := by
    apply fl_eval _ (-3) 55 6004799503160661 (by norm_num) (by norm_num)
    · norm_num
    · norm_num
    · norm_num
    · norm_num
  have hfl2 : fl (30 * ((6004799503160661 : ℚ) / 2 ^ 55)) = (5629499534213120 : ℚ) / 2 ^ 50 := by
    apply fl_eval _ (2) 50 5629499534213120 (by norm_num) (by norm_num)
    · norm_num
    · norm_num
    · norm_num
    · norm_num
  rw [hfl1, hfl2]
  have hfy : ⌊(5629499534213120 : ℚ) / 2 ^ 50⌋ = 5 := by
    rw [Int.floor_eq_iff]
    constructor
    · norm_num
    · norm_num
  have hfa : ⌊(30000 : ℚ) / ((6000 : ℤ) : ℚ)⌋ = 5 := by
    rw [Int.floor_eq_iff]
    constructor
    · norm_num
    · norm_num
  rw [truncQ, if_neg (by norm_num), hfy, hfa]

theorem flCase7500 :
    truncQ (fl (30 * fl (1000 / ((7500 : ℤ) : ℚ)))) = ⌊(30000 : ℚ) / ((7500 : ℤ) : ℚ)⌋ := by
  have hfl1 : fl (1000 / ((7500 : ℤ) : ℚ)) = (4803839602528529 : ℚ) / 2 ^ 55 := by
    apply fl_eval _ (-3) 55 4803839602528529 (by norm_num) (by norm_num)
    · norm_num
    · norm_num
    · norm_num
    · norm_num
  have hfl2 : fl (30 * ((4803839602528529 : ℚ) / 2 ^ 55)) = (9007199254740992 : ℚ) / 2 ^ 51 := by
    apply fl_eval _ (1) 51 9007199254740992 (by norm_num) (by norm_num)
    · norm_num
    · norm_num
    · norm_num
    · norm_num
  rw [hfl1, hfl2]
  have hfy : ⌊(9007199254740992 : ℚ) / 2 ^ 51⌋ = 4 := by
    rw [Int.floor_eq_iff]
    constructor
    · norm_num
    · norm_num
  have hfa : ⌊(30000 : ℚ) / ((7500 : ℤ) : ℚ)⌋ = 4 := by
    rw [Int.floor_eq_iff]
    constructor
    · norm_num
    · norm_num
  rw [truncQ, if_neg (by norm_num), hfy, hfa]

theorem flCase10000 :
    truncQ (fl (30 * fl (1000 / ((10000 : ℤ) : ℚ)))) = ⌊(30000 : ℚ) / ((10000 : ℤ) : ℚ)⌋ := by
  have hfl1 : fl (1000 / ((10000 : ℤ) : ℚ)) = (7205759403792794 : ℚ) / 2 ^ 56 := by
    apply fl_eval _ (-4) 56 7205759403792794 (by norm_num) (by norm_num)
    · norm_num
    · norm_num
    · norm_num
    · norm_num
  have hfl2 : fl (30 * ((7205759403792794 : ℚ) / 2 ^ 56)) = (6755399441055744 : ℚ) / 2 ^ 51 := by
    apply fl_eval _ (1) 51 6755399441055744 (by norm_num) (by norm_num)
    · norm_num
    · norm_num
    · norm_num
    · norm_num
  rw [hfl1, hfl2]
  have hfy : ⌊(6755399441055744 : ℚ) / 2 ^ 51⌋ = 3 := by
    rw [Int.floor_eq_iff]
    constructor
    · norm_num
    · norm_num
  have hfa : ⌊(30000 : ℚ) / ((10000 : ℤ) : ℚ)⌋ = 3 := by
    rw [Int.floor_eq_iff]
    constructor
    · norm_num
    · norm_num
  rw [truncQ, if_neg (by norm_num), hfy, hfa]

theorem flCase15000 :
    truncQ (fl (30 * fl (1000 / ((15000 : ℤ) : ℚ)))) = ⌊(30000 : ℚ) / ((15000 : ℤ) : ℚ)⌋ := by
  have hfl1 : fl (1000 / ((15000 : ℤ) : ℚ)) = (4803839602528529 : ℚ) / 2 ^ 56 := by
    apply fl_eval _ (-4) 56 4803839602528529 (by norm_num) (by norm_num)
    · norm_num
    · norm_num
    · norm_num
    · norm_num
  have hfl2 : fl (30 * ((4803839602528529 : ℚ) / 2 ^ 56)) = (9007199254740992 : ℚ) / 2 ^ 52 := by
    apply fl_eval _ (0) 52 9007199254740992 (by norm_num) (by norm_num)
    · norm_num
    · norm_num
    · norm_num
    · norm_num
  rw [hfl1, hfl2]
  have hfy : ⌊(9007199254740992 : ℚ) / 2 ^ 52⌋ = 2 := by
    rw [Int.floor_eq_iff]
    constructor
    · norm_num
    · norm_num
  have hfa : ⌊(30000 : ℚ) / ((15000 : ℤ) : ℚ)⌋ = 2 := by
    rw [Int.floor_eq_iff]
    constructor
    · norm_num
    · norm_num
  rw [truncQ, if_neg (by norm_num), hfy, hfa]

theorem flCase30000 :
    truncQ (fl (30 * fl (1000 / ((30000 : ℤ) : ℚ)))) = ⌊(30000 : ℚ) / ((30000 : ℤ) : ℚ)⌋ := by
  have hfl1 : fl (1000 / ((30000 : ℤ) : ℚ)) = (4803839602528529 : ℚ) / 2 ^ 57 := by
    apply fl_eval _ (-5) 57 4803839602528529 (by norm_num) (by norm_num)
    · norm_num
    · norm_num
    · norm_num
    · norm_num
  have hfl2 : fl (30 * ((4803839602528529 : ℚ) / 2 ^ 57)) = (9007199254740992 : ℚ) / 2 ^ 53 := by
    apply fl_eval _ (-1) 53 9007199254740992 (by norm_num) (by norm_num)
    · norm_num
    · norm_num
    · norm_num
    · norm_num
  rw [hfl1, hfl2]
  have hfy : ⌊(9007199254740992 : ℚ) / 2 ^ 53⌋ = 1 := by
    rw [Int.floor_eq_iff]
    constructor
    · norm_num
    · norm_num
  have hfa : ⌊(30000 : ℚ) / ((30000 : ℤ) : ℚ)⌋ = 1 := by
    rw [Int.floor_eq_iff]
    constructor
    · norm_num
    · norm_num
  rw [truncQ, if_neg (by norm_num), hfy, hfa]

end MQTT.Float64
namespace MQTT.Float64

theorem flCase_cast (a : ℕ) (X : ℤ) (h : (a : ℤ) = X)
    (hX : truncQ (fl (30 * fl (1000 / (X : ℚ)))) = ⌊(30000 : ℚ) / (X : ℚ)⌋) :
    truncQ (fl (30 * fl (1000 / ((a : ℤ) : ℚ)))) = ⌊(30000 : ℚ) / ((a : ℤ) : ℚ)⌋ := by
  rw [h]
  exact hX

theorem trunc_fl_fl_of_dvd (d : ℤ) (hd : 0 < d) (hdvd : d ∣ 30000) :
    truncQ (fl (30 * fl (1000 / (d : ℚ)))) = ⌊(30000 : ℚ) / (d : ℚ)⌋ := by
  have hdn : d.toNat ∣ 30000 := by
    have h1 : (d.toNat : ℤ) = d := Int.toNat_of_nonneg (le_of_lt hd)
    have h2 : (d.toNat : ℤ) ∣ (30000 : ℤ) := h1 ▸ hdvd
    exact_mod_cast h2
  rw [show (30000 : ℕ) = 16 * 1875 from by norm_num] at hdn
  obtain ⟨n1, n2, h1, h2, hmul⟩ := Nat.dvd_mul.mp hdn
  rw [show (1875 : ℕ) = 3 * 625 from by norm_num] at h2
  obtain ⟨c, n5, hc, h5, hmul2⟩ := Nat.dvd_mul.mp h2
  rw [show (16 : ℕ) = 2 ^ 4 from by norm_num] at h1
  obtain ⟨i, hi, rfl⟩ := (Nat.dvd_prime_pow Nat.prime_two).mp h1
  rw [show (625 : ℕ) = 5 ^ 4 from by norm_num] at h5
  obtain ⟨j, hj, rfl⟩ := (Nat.dvd_prime_pow Nat.prime_five).mp h5
  rw [← hmul2] at hmul
  have hd2 : d = ((2 ^ i * (c * 5 ^ j) : ℕ) : ℤ) := by
    rw [hmul]
    exact (Int.toNat_of_nonneg (le_of_lt hd)).symm
  rw [hd2]
  rcases Nat.prime_three.eq_one_or_self_of_dvd c hc with rfl | rfl <;>
    interval_cases i <;> interval_cases j
  · exact flCase_cast _ _ (by norm_num) flCase1
  · exact flCase_cast _ _ (by norm_num) flCase5
  · exact flCase_cast _ _ (by norm_num) flCase25
  · exact flCase_cast _ _ (by norm_num) flCase125
  · exact flCase_cast _ _ (by norm_num) flCase625
  · exact flCase_cast _ _ (by norm_num) flCase2
  · exact flCase_cast _ _ (by norm_num) flCase10
  · exact flCase_cast _ _ (by norm_num) flCase50
  · exact flCase_cast _ _ (by norm_num) flCase250
  · exact flCase_cast _ _ (by norm_num) flCase1250
  · exact flCase_cast _ _ (by norm_num) flCase4
  · exact flCase_cast _ _ (by norm_num) flCase20
  · exact flCase_cast _ _ (by norm_num) flCase100
  · exact flCase_cast _ _ (by norm_num) flCase500
  · exact flCase_cast _ _ (by norm_num) flCase2500
  · exact flCase_cast _ _ (by norm_num) flCase8
  · exact flCase_cast _ _ (by norm_num) flCase40
  · exact flCase_cast _ _ (by norm_num) flCase200
  · exact flCase_cast _ _ (by norm_num) flCase1000
  · exact flCase_cast _ _ (by norm_num) flCase5000
  · exact flCase_cast _ _ (by norm_num) flCase16
  · exact flCase_cast _ _ (by norm_num) flCase80
  · exact flCase_cast _ _ (by norm_num) flCase400
  · exact flCase_cast _ _ (by norm_num) flCase2000
  · exact flCase_cast _ _ (by norm_num) flCase10000
  · exact flCase_cast _ _ (by norm_num) flCase3
  · exact flCase_cast _ _ (by norm_num) flCase15
  · exact flCase_cast _ _ (by norm_num) flCase75
  · exact flCase_cast _ _ (by norm_num) flCase375
  · exact flCase_cast _ _ (by norm_num) flCase1875
  · exact flCase_cast _ _ (by norm_num) flCase6
  · exact flCase_cast _ _ (by norm_num) flCase30
  · exact flCase_cast _ _ (by norm_num) flCase150
  · exact flCase_cast _ _ (by norm_num) flCase750
  · exact flCase_cast _ _ (by norm_num) flCase3750
  · exact flCase_cast _ _ (by norm_num) flCase12
  · exact flCase_cast _ _ (by norm_num) flCase60
  · exact flCase_cast _ _ (by norm_num) flCase300
  · exact flCase_cast _ _ (by norm_num) flCase1500
  · exact flCase_cast _ _ (by norm_num) flCase7500
  · exact flCase_cast _ _ (by norm_num) flCase24
  · exact flCase_cast _ _ (by norm_num) flCase120
  · exact flCase_cast _ _ (by norm_num) flCase600
  · exact flCase_cast _ _ (by norm_num) flCase3000
  · exact flCase_cast _ _ (by norm_num) flCase15000
  · exact flCase_cast _ _ (by norm_num) flCase48
  · exact flCase_cast _ _ (by norm_num) flCase240
  · exact flCase_cast _ _ (by norm_num) flCase1200
  · exact flCase_cast _ _ (by norm_num) flCase6000
  · exact flCase_cast _ _ (by norm_num) flCase30000

end MQTT.Float64

namespace MQTT.Analyzer

open MQTT.Float64

/-- C2.  For every positive integer delay, the per-publisher expected
count computed by `calculate_results` — `int(30 * (1000 / delay))`,
evaluated in binary64 floating-point arithmetic with both the division
and the product rounded to nearest-even and the result truncated by
`int(...)` — equals exactly `floor(30 * 1000 / delay)` taken over the
exact rationals.  The two rounding steps never move the value across an
integer boundary: away from the divisors of 30000 the exact quotient is
at least `1/delay` from the neighbouring integers while the accumulated
relative rounding error stays below `2 ^ (-50)`; at the 50 divisors of
30000 the rounded computation is checked to land in `[N, N + 1)`
individually. -/
theorem expected_count_closed_form :
    ∀ (delay : ℤ) (sorted_counters : List ℤ), 0 < delay →
      expected_messages delay sorted_counters = ⌊(30000 : ℚ) / (delay : ℚ)⌋ := by
  intro d sc hd
  rw [expected_messages, if_neg (by omega : ¬ d = 0)]
  have hdq : (0 : ℚ) < (d : ℚ) := by exact_mod_cast hd
  have hq1 : (0 : ℚ) < 1000 / (d : ℚ) := by positivity
  have h1 : flSigned (1000 / (d : ℚ)) = fl (1000 / (d : ℚ)) := by
    rw [flSigned, if_neg (not_lt.mpr (le_of_lt hq1))]
  rw [h1]
  have hzpos : (0 : ℚ) < 30 * fl (1000 / (d : ℚ)) :=
    mul_pos (by norm_num) (fl_pos _ hq1)
  have h2 : flSigned (30 * fl (1000 / (d : ℚ))) = fl (30 * fl (1000 / (d : ℚ))) := by
    rw [flSigned, if_neg (not_lt.mpr (le_of_lt hzpos))]
  rw [h2]
  by_cases hdvd : d ∣ 30000
  · exact trunc_fl_fl_of_dvd d hd hdvd
  · exact trunc_fl_fl_of_not_dvd d hd hdvd

/-- Witness for C2 at the sweep's delay of 100 ms. -/
theorem expected_count_closed_form_witness :
    (0 : ℤ) < 100 ∧
      expected_messages 100 [] = ⌊(30000 : ℚ) / ((100 : ℤ) : ℚ)⌋ :=
  ⟨by decide, expected_count_closed_form 100 [] (by decide)⟩

end MQTT.Analyzer
